import Mathlib

/-!
Verification development for the stock-prediction backend
(`backend/data/data_processor.py`, `backend/models/lstm_model.py`,
`backend/models/attention_model.py`, `backend/models/ensemble_model.py`,
`backend/app.py`).

The numeric cells of a pandas DataFrame are modelled by the type `PF`
("pandas float"): either a rational value, one of the two infinities, or
NaN, with IEEE-754-style propagation rules for the arithmetic used by the
code (`x / 0` with `x > 0` is `+inf`, `0 / 0` is NaN, any operation on NaN
is NaN, comparisons against NaN are false).  Exact binary floating point
rounding is not modelled: the properties under study (row counts, NaN/fill
structure, control flow, the confidence/recommendation formulas) do not
depend on rounding.  `pandas.rolling` semantics with the default
`min_periods = window` are modelled by producing NaN for every row whose
window is not yet full, and by letting NaN propagate through the window
aggregation.  `numpy.sqrt` is irrational on most rationals, so the code
that needs it (`rolling(...).std()`) is parameterised by a function
`sqrtFn : ℚ → ℚ`; every theorem that depends on it assumes only the
properties of the real square root that it needs (`sqrtFn 0 = 0`), and
witnesses instantiate it concretely.
-/

/-- A pandas/numpy float cell: NaN, +inf, -inf, or a (rational) number. -/
inductive PF where
  | nan : PF
  | inf : PF
  | ninf : PF
  | val : ℚ → PF
deriving DecidableEq, Repr

namespace PF

/-- Is this cell NaN?  (`pandas.isna`; infinities are *not* NaN.) -/
def isNan : PF → Bool
  | nan => true
  | _ => false

/-- IEEE negation. -/
def neg : PF → PF
  | nan => nan
  | inf => ninf
  | ninf => inf
  | val a => val (-a)

/-- IEEE addition (NaN propagates, `inf + -inf = NaN`). -/
def add : PF → PF → PF
  | nan, _ => nan
  | _, nan => nan
  | inf, ninf => nan
  | ninf, inf => nan
  | inf, _ => inf
  | _, inf => inf
  | ninf, _ => ninf
  | _, ninf => ninf
  | val a, val b => val (a + b)

/-- IEEE subtraction. -/
def sub (a b : PF) : PF := add a (neg b)

/-- IEEE multiplication (`inf * 0 = NaN`). -/
def mul : PF → PF → PF
  | nan, _ => nan
  | _, nan => nan
  | inf, inf => inf
  | inf, ninf => ninf
  | ninf, inf => ninf
  | ninf, ninf => inf
  | inf, val b => if b > 0 then inf else if b < 0 then ninf else nan
  | val a, inf => if a > 0 then inf else if a < 0 then ninf else nan
  | ninf, val b => if b > 0 then ninf else if b < 0 then inf else nan
  | val a, ninf => if a > 0 then ninf else if a < 0 then inf else nan
  | val a, val b => val (a * b)

/-- IEEE division with numpy's zero-division behaviour (`x/0 = ±inf` for
`x ≠ 0`, `0/0 = NaN`); rationals have no signed zero, zero divisors are
treated as `+0` (which is what the subtractions in this code produce). -/
def div : PF → PF → PF
  | nan, _ => nan
  | _, nan => nan
  | inf, inf => nan
  | inf, ninf => nan
  | ninf, inf => nan
  | ninf, ninf => nan
  | inf, val b => if b < 0 then ninf else inf
  | ninf, val b => if b < 0 then inf else ninf
  | val _, inf => val 0
  | val _, ninf => val 0
  | val a, val b =>
    if b = 0 then (if a = 0 then nan else if a > 0 then inf else ninf)
    else val (a / b)

/-- Strict less-than; any comparison involving NaN is false. -/
def lt : PF → PF → Bool
  | nan, _ => false
  | _, nan => false
  | ninf, ninf => false
  | ninf, _ => true
  | _, ninf => false
  | inf, _ => false
  | _, inf => true
  | val a, val b => decide (a < b)

/-- `numpy.maximum`: NaN propagates. -/
def max2 (a b : PF) : PF :=
  match a, b with
  | nan, _ => nan
  | _, nan => nan
  | x, y => if lt x y then y else x

/-- `numpy.minimum`-style minimum used for rolling mins: NaN propagates. -/
def min2 (a b : PF) : PF :=
  match a, b with
  | nan, _ => nan
  | _, nan => nan
  | x, y => if lt y x then y else x

/-- `numpy.sign` (sign of NaN is NaN). -/
def sign : PF → PF
  | nan => nan
  | inf => val 1
  | ninf => val (-1)
  | val a => val (if a > 0 then 1 else if a < 0 then -1 else 0)

/-- `numpy.abs`. -/
def abs : PF → PF
  | nan => nan
  | inf => inf
  | ninf => inf
  | val a => val |a|

/-- `numpy.sqrt`, parameterised by a rational stand-in `sqrtFn` for the
(real, usually irrational) square root of a nonnegative rational. -/
def sqrtP (sqrtFn : ℚ → ℚ) : PF → PF
  | nan => nan
  | inf => inf
  | ninf => nan
  | val a => if a < 0 then nan else val (sqrtFn a)

/-- Extract the rational from a numeric cell (junk 0 on NaN/inf; only used
on cells known to be numeric, e.g. after `dropna`). -/
def getQ : PF → ℚ
  | val a => a
  | _ => 0

end PF

/-! ## Series combinators (pandas column operations) -/

/-- Sum of a window, via IEEE addition (NaN in the window poisons it). -/
def sumPF (l : List PF) : PF := l.foldr PF.add (PF.val 0)

/-- Mean of a window (`rolling(w).mean()` aggregation). -/
def meanPF (l : List PF) : PF := (sumPF l).div (PF.val (l.length : ℚ))

/-- Minimum of a window (`rolling(w).min()` aggregation); NaN propagates,
empty window is NaN. -/
def minPF : List PF → PF
  | [] => PF.nan
  | x :: t => t.foldl PF.min2 x

/-- Maximum of a window (`rolling(w).max()` aggregation). -/
def maxPF : List PF → PF
  | [] => PF.nan
  | x :: t => t.foldl PF.max2 x

/-- Sample standard deviation (`rolling(w).std()`, ddof = 1), through the
rational variance and the `sqrtFn` stand-in for the real square root. -/
def stdPF (sqrtFn : ℚ → ℚ) (l : List PF) : PF :=
  let m := meanPF l
  let ss := sumPF (l.map (fun x => (x.sub m).mul (x.sub m)))
  PF.sqrtP sqrtFn (ss.div (PF.val ((l.length - 1 : ℕ) : ℚ)))

/-- Mean absolute deviation of a window: the
`lambda x: np.mean(np.abs(x - x.mean()))` aggregation used for the CCI. -/
def madPF (l : List PF) : PF :=
  let m := meanPF l
  meanPF (l.map (fun x => (x.sub m).abs))

/-- `series.rolling(window = w).f()` with the pandas default
`min_periods = w`: NaN until the window is full, then the aggregation of
the length-`w` window ending at the row. -/
def rollingPF (w : Nat) (f : List PF → PF) (xs : List PF) : List PF :=
  (List.range xs.length).map fun i =>
    if i + 1 < w then PF.nan else f ((xs.drop (i + 1 - w)).take w)

/-- Pointwise combination of two equal-length columns (vectorised binary
operation on two pandas Series). -/
def pw (f : PF → PF → PF) (a b : List PF) : List PF :=
  (List.range a.length).map fun i => f (a.getD i PF.nan) (b.getD i PF.nan)

/-- `series.diff()`: NaN at row 0, else the difference with the previous
row (input column is NaN-free, as everywhere in this code base). -/
def diffPF (xs : List ℚ) : List PF :=
  (List.range xs.length).map fun i =>
    if i = 0 then PF.nan else PF.val (xs.getD i 0 - xs.getD (i - 1) 0)

/-- `series.shift(k)` of a NaN-free column: NaN for the first `k` rows. -/
def shiftPF (k : Nat) (xs : List ℚ) : List PF :=
  (List.range xs.length).map fun i =>
    if i < k then PF.nan else PF.val (xs.getD (i - k) 0)

/-- `series.pct_change(k)` of a NaN-free column: NaN for the first `k`
rows, else `(x_i - x_{i-k}) / x_{i-k}` with IEEE zero-division. -/
def pctChangePF (k : Nat) (xs : List ℚ) : List PF :=
  (List.range xs.length).map fun i =>
    if i < k then PF.nan
    else (PF.val (xs.getD i 0 - xs.getD (i - k) 0)).div (PF.val (xs.getD (i - k) 0))

/-- `series.ewm(span = s).mean()` with the pandas defaults
(`adjust = True`) on a NaN-free column:
`y_i = (Σ_{j ≤ i} (1-α)^j x_{i-j}) / (Σ_{j ≤ i} (1-α)^j)`, `α = 2/(s+1)`. -/
def ewmQ (span : Nat) (xs : List ℚ) : List ℚ :=
  let om : ℚ := 1 - 2 / ((span : ℚ) + 1)
  (List.range xs.length).map fun i =>
    (((List.range (i + 1)).map fun j => om ^ j * xs.getD (i - j) 0).sum) /
      (((List.range (i + 1)).map fun j => om ^ j).sum)

/-- `series.cumsum()` (only applied after `fillna(0)`, i.e. NaN-free). -/
def cumsumPF (xs : List PF) : List PF :=
  (List.range xs.length).map fun i => sumPF ((xs.take (i + 1)).reverse)

/-- `series.fillna(0)`. -/
def fillZero (xs : List PF) : List PF :=
  xs.map fun x => if x.isNan then PF.val 0 else x

/-! ## The forward-fill-then-backward-fill policy
(`df.fillna(method='ffill').fillna(method='bfill')`) -/

/-- Forward fill, carrying the last non-NaN value seen (`last`). -/
def ffillAux : Option PF → List PF → List PF
  | _, [] => []
  | last, x :: rest =>
    if x.isNan then
      match last with
      | some v => v :: ffillAux (some v) rest
      | none => x :: ffillAux none rest
    else x :: ffillAux (some x) rest

/-- `fillna(method='ffill')`. -/
def ffill (xs : List PF) : List PF := ffillAux none xs

/-- First non-NaN value of a column, if any. -/
def firstVal (xs : List PF) : Option PF := xs.find? (fun x => !x.isNan)

/-- `fillna(method='bfill')`: every NaN takes the next non-NaN value below
it (left as NaN when the rest of the column is all NaN). -/
def bfill : List PF → List PF
  | [] => []
  | x :: rest => (if x.isNan then (firstVal rest).getD x else x) :: bfill rest

/-- The whole fill policy: forward fill, then backward fill. -/
def fillCol (xs : List PF) : List PF := bfill (ffill xs)

/-! ## Data model: a cleaned OHLCV frame
(the input of `DataProcessor.add_technical_indicators` and
`EnsembleModel.create_features`; `prepare_data` has already validated the
columns and dropped NaN rows, so the base columns are plain rationals) -/

/-- A cleaned OHLCV DataFrame: five equal-length numeric columns. -/
structure OHLCV where
  opn : List ℚ
  high : List ℚ
  low : List ℚ
  close : List ℚ
  volume : List ℚ
deriving Repr

/-- Number of rows. -/
def OHLCV.n (df : OHLCV) : Nat := df.close.length

/-- Well-formedness: the five columns have the same length. -/
def OHLCV.Wf (df : OHLCV) : Prop :=
  df.opn.length = df.n ∧ df.high.length = df.n ∧ df.low.length = df.n ∧
    df.volume.length = df.n

instance (df : OHLCV) : Decidable df.Wf := by unfold OHLCV.Wf; infer_instance

/-- A column of rationals as a PF column. -/
def qcol (xs : List ℚ) : List PF := xs.map PF.val

/-! ## `DataProcessor.add_technical_indicators`
(backend/data/data_processor.py, lines 34-123): one definition per
indicator column, in source order, then the assembled frame with the
trailing `fillna(ffill).fillna(bfill)`. -/

/-- `df['SMA_w'] = df['Close'].rolling(window=w).mean()`. -/
def smaCol (w : Nat) (df : OHLCV) : List PF := rollingPF w meanPF (qcol df.close)

/-- `df['EMA_s'] = df['Close'].ewm(span=s).mean()`. -/
def emaCol (s : Nat) (df : OHLCV) : List PF := qcol (ewmQ s df.close)

/-- `df['MACD'] = df['EMA_12'] - df['EMA_26']` as a rational column (the
EMA columns are everywhere defined). -/
def macdQ (df : OHLCV) : List ℚ :=
  (List.range df.close.length).map fun i =>
    (ewmQ 12 df.close).getD i 0 - (ewmQ 26 df.close).getD i 0

/-- `df['MACD']`. -/
def macdCol (df : OHLCV) : List PF := qcol (macdQ df)

/-- `df['MACD_signal'] = df['MACD'].ewm(span=9).mean()`. -/
def macdSignalCol (df : OHLCV) : List PF := qcol (ewmQ 9 (macdQ df))

/-- `df['MACD_histogram'] = df['MACD'] - df['MACD_signal']`. -/
def macdHistogramCol (df : OHLCV) : List PF := pw PF.sub (macdCol df) (macdSignalCol df)

/-- `delta = df['Close'].diff()`. -/
def deltaCol (df : OHLCV) : List PF := diffPF df.close

/-- `gain = (delta.where(delta > 0, 0)).rolling(window=14).mean()`
(a NaN delta compares false, so row 0 becomes 0, per pandas `where`). -/
def gainCol (df : OHLCV) : List PF :=
  rollingPF 14 meanPF
    ((deltaCol df).map fun x => if PF.lt (PF.val 0) x then x else PF.val 0)

/-- `loss = (-delta.where(delta < 0, 0)).rolling(window=14).mean()`. -/
def lossCol (df : OHLCV) : List PF :=
  rollingPF 14 meanPF
    ((deltaCol df).map fun x => PF.neg (if PF.lt x (PF.val 0) then x else PF.val 0))

/-- `rs = gain / loss`. -/
def rsCol (df : OHLCV) : List PF := pw PF.div (gainCol df) (lossCol df)

/-- `df['RSI'] = 100 - (100 / (1 + rs))`. -/
def rsiCol (df : OHLCV) : List PF :=
  (rsCol df).map fun x =>
    PF.sub (PF.val 100) ((PF.val 100).div ((PF.val 1).add x))

/-- `df['BB_middle'] = df['Close'].rolling(window=20).mean()`. -/
def bbMiddleCol (df : OHLCV) : List PF := rollingPF 20 meanPF (qcol df.close)

/-- `bb_std = df['Close'].rolling(window=20).std()`. -/
def bbStdCol (sqrtFn : ℚ → ℚ) (df : OHLCV) : List PF :=
  rollingPF 20 (stdPF sqrtFn) (qcol df.close)

/-- `df['BB_upper'] = df['BB_middle'] + (bb_std * 2)`. -/
def bbUpperCol (sqrtFn : ℚ → ℚ) (df : OHLCV) : List PF :=
  pw PF.add (bbMiddleCol df) ((bbStdCol sqrtFn df).map (fun x => x.mul (PF.val 2)))

/-- `df['BB_lower'] = df['BB_middle'] - (bb_std * 2)`. -/
def bbLowerCol (sqrtFn : ℚ → ℚ) (df : OHLCV) : List PF :=
  pw PF.sub (bbMiddleCol df) ((bbStdCol sqrtFn df).map (fun x => x.mul (PF.val 2)))

/-- `df['BB_width'] = df['BB_upper'] - df['BB_lower']`. -/
def bbWidthCol (sqrtFn : ℚ → ℚ) (df : OHLCV) : List PF :=
  pw PF.sub (bbUpperCol sqrtFn df) (bbLowerCol sqrtFn df)

/-- `df['BB_position'] = (df['Close'] - df['BB_lower']) / df['BB_width']`. -/
def bbPositionCol (sqrtFn : ℚ → ℚ) (df : OHLCV) : List PF :=
  pw PF.div (pw PF.sub (qcol df.close) (bbLowerCol sqrtFn df)) (bbWidthCol sqrtFn df)

/-- `lowest_low = df['Low'].rolling(window=14).min()`. -/
def lowestLowCol (df : OHLCV) : List PF := rollingPF 14 minPF (qcol df.low)

/-- `highest_high = df['High'].rolling(window=14).max()`. -/
def highestHighCol (df : OHLCV) : List PF := rollingPF 14 maxPF (qcol df.high)

/-- `df['Stoch_K'] = 100 * (df['Close'] - lowest_low) / (highest_high - lowest_low)`. -/
def stochKCol (df : OHLCV) : List PF :=
  (pw PF.div (pw PF.sub (qcol df.close) (lowestLowCol df))
      (pw PF.sub (highestHighCol df) (lowestLowCol df))).map
    (fun x => (PF.val 100).mul x)

/-- `df['Stoch_D'] = df['Stoch_K'].rolling(window=3).mean()`. -/
def stochDCol (df : OHLCV) : List PF := rollingPF 3 meanPF (stochKCol df)

/-- `true_range = np.maximum(high-low, np.maximum(|high-prevclose|, |low-prevclose|))`. -/
def trueRangeCol (df : OHLCV) : List PF :=
  pw PF.max2
    (pw PF.sub (qcol df.high) (qcol df.low))
    (pw PF.max2
      ((pw PF.sub (qcol df.high) (shiftPF 1 df.close)).map PF.abs)
      ((pw PF.sub (qcol df.low) (shiftPF 1 df.close)).map PF.abs))

/-- `df['ATR'] = true_range.rolling(window=14).mean()`. -/
def atrCol (df : OHLCV) : List PF := rollingPF 14 meanPF (trueRangeCol df)

/-- `df['Volume_SMA'] = df['Volume'].rolling(window=20).mean()`. -/
def volumeSmaCol (df : OHLCV) : List PF := rollingPF 20 meanPF (qcol df.volume)

/-- `df['Volume_ratio'] = df['Volume'] / df['Volume_SMA']`. -/
def volumeRatioCol (df : OHLCV) : List PF := pw PF.div (qcol df.volume) (volumeSmaCol df)

/-- `df['Price_momentum_k'] = df['Close'].pct_change(k)`. -/
def priceMomentumCol (k : Nat) (df : OHLCV) : List PF := pctChangePF k df.close

/-- `df['Volatility'] = df['Close'].rolling(window=20).std()`. -/
def volatilityCol (sqrtFn : ℚ → ℚ) (df : OHLCV) : List PF :=
  rollingPF 20 (stdPF sqrtFn) (qcol df.close)

/-- `df['High_Low_ratio'] = df['High'] / df['Low']`. -/
def highLowRatioCol (df : OHLCV) : List PF := pw PF.div (qcol df.high) (qcol df.low)

/-- `df['Close_Open_ratio'] = df['Close'] / df['Open']`. -/
def closeOpenRatioCol (df : OHLCV) : List PF := pw PF.div (qcol df.close) (qcol df.opn)

/-- `df['Williams_R'] = -100 * (highest_high - df['Close']) / (highest_high - lowest_low)`. -/
def williamsRCol (df : OHLCV) : List PF :=
  (pw PF.div (pw PF.sub (highestHighCol df) (qcol df.close))
      (pw PF.sub (highestHighCol df) (lowestLowCol df))).map
    (fun x => (PF.val (-100)).mul x)

/-- `tp = (df['High'] + df['Low'] + df['Close']) / 3` (rational, NaN-free). -/
def tpQ (df : OHLCV) : List ℚ :=
  (List.range df.close.length).map fun i =>
    (df.high.getD i 0 + df.low.getD i 0 + df.close.getD i 0) / 3

/-- `sma_tp = tp.rolling(window=20).mean()`. -/
def smaTpCol (df : OHLCV) : List PF := rollingPF 20 meanPF (qcol (tpQ df))

/-- `mean_dev = tp.rolling(window=20).apply(lambda x: np.mean(np.abs(x - x.mean())))`. -/
def meanDevCol (df : OHLCV) : List PF := rollingPF 20 madPF (qcol (tpQ df))

/-- `df['CCI'] = (tp - sma_tp) / (0.015 * mean_dev)`. -/
def cciCol (df : OHLCV) : List PF :=
  pw PF.div (pw PF.sub (qcol (tpQ df)) (smaTpCol df))
    ((meanDevCol df).map (fun x => (PF.val (3 / 200)).mul x))

/-- `df['ROC'] = ((df['Close'] - df['Close'].shift(12)) / df['Close'].shift(12)) * 100`. -/
def rocCol (df : OHLCV) : List PF :=
  (pw PF.div (pw PF.sub (qcol df.close) (shiftPF 12 df.close)) (shiftPF 12 df.close)).map
    (fun x => x.mul (PF.val 100))

/-- `df['OBV'] = (np.sign(df['Close'].diff()) * df['Volume']).fillna(0).cumsum()`. -/
def obvCol (df : OHLCV) : List PF :=
  cumsumPF (fillZero (pw PF.mul ((diffPF df.close).map PF.sign) (qcol df.volume)))

/-- `money_flow = typical_price * df['Volume']` (rational, NaN-free). -/
def moneyFlowQ (df : OHLCV) : List ℚ :=
  (List.range df.close.length).map fun i => (tpQ df).getD i 0 * df.volume.getD i 0

/-- `positive_flow = money_flow.where(tp > tp.shift(1), 0).rolling(window=14).sum()`
(row 0's NaN comparison is false, so row 0 contributes 0). -/
def positiveFlowCol (df : OHLCV) : List PF :=
  rollingPF 14 sumPF
    ((List.range df.close.length).map fun i =>
      if PF.lt (shiftPF 1 (tpQ df) |>.getD i PF.nan) (PF.val ((tpQ df).getD i 0))
      then PF.val ((moneyFlowQ df).getD i 0) else PF.val 0)

/-- `negative_flow = money_flow.where(tp < tp.shift(1), 0).rolling(window=14).sum()`. -/
def negativeFlowCol (df : OHLCV) : List PF :=
  rollingPF 14 sumPF
    ((List.range df.close.length).map fun i =>
      if PF.lt (PF.val ((tpQ df).getD i 0)) (shiftPF 1 (tpQ df) |>.getD i PF.nan)
      then PF.val ((moneyFlowQ df).getD i 0) else PF.val 0)

/-- `mfi_ratio = positive_flow / negative_flow`. -/
def mfiRatioCol (df : OHLCV) : List PF :=
  pw PF.div (positiveFlowCol df) (negativeFlowCol df)

/-- `df['MFI'] = 100 - (100 / (1 + mfi_ratio))`. -/
def mfiCol (df : OHLCV) : List PF :=
  (mfiRatioCol df).map fun x =>
    PF.sub (PF.val 100) ((PF.val 100).div ((PF.val 1).add x))

/-- The enriched frame before the fill: the original OHLCV columns plus
every indicator column, in the order the source appends them. -/
def rawIndicatorFrame (sqrtFn : ℚ → ℚ) (df : OHLCV) : List (String × List PF) :=
  [("Open", qcol df.opn), ("High", qcol df.high), ("Low", qcol df.low),
   ("Close", qcol df.close), ("Volume", qcol df.volume),
   ("SMA_5", smaCol 5 df), ("SMA_10", smaCol 10 df),
   ("SMA_20", smaCol 20 df), ("SMA_50", smaCol 50 df),
   ("EMA_12", emaCol 12 df), ("EMA_26", emaCol 26 df),
   ("MACD", macdCol df), ("MACD_signal", macdSignalCol df),
   ("MACD_histogram", macdHistogramCol df),
   ("RSI", rsiCol df),
   ("BB_middle", bbMiddleCol df), ("BB_upper", bbUpperCol sqrtFn df),
   ("BB_lower", bbLowerCol sqrtFn df), ("BB_width", bbWidthCol sqrtFn df),
   ("BB_position", bbPositionCol sqrtFn df),
   ("Stoch_K", stochKCol df), ("Stoch_D", stochDCol df),
   ("ATR", atrCol df),
   ("Volume_SMA", volumeSmaCol df), ("Volume_ratio", volumeRatioCol df),
   ("Price_momentum_5", priceMomentumCol 5 df),
   ("Price_momentum_10", priceMomentumCol 10 df),
   ("Price_momentum_20", priceMomentumCol 20 df),
   ("Volatility", volatilityCol sqrtFn df),
   ("High_Low_ratio", highLowRatioCol df),
   ("Close_Open_ratio", closeOpenRatioCol df),
   ("Williams_R", williamsRCol df),
   ("CCI", cciCol df), ("ROC", rocCol df), ("OBV", obvCol df),
   ("MFI", mfiCol df)]

/-- `DataProcessor.add_technical_indicators`: the raw enriched frame with
`df.fillna(method='ffill').fillna(method='bfill')` applied to every
column. -/
def addTechnicalIndicators (sqrtFn : ℚ → ℚ) (df : OHLCV) : List (String × List PF) :=
  (rawIndicatorFrame sqrtFn df).map fun c => (c.1, fillCol c.2)

/-- `DataProcessor.create_sequences` (data_processor.py, lines 144-156):
for `i in range(sequence_length, len(values))`, window `values[i-L:i]`
and target `values[i]`. -/
def create_sequences (values : List ℚ) (sequence_length : Nat) :
    List (List ℚ) × List ℚ :=
  (((List.range' sequence_length (values.length - sequence_length)).map fun i =>
      (values.drop (i - sequence_length)).take sequence_length),
   ((List.range' sequence_length (values.length - sequence_length)).map fun i =>
      values.getD i 0))

/-! ## Forecast driver (`predict_stock`, backend/app.py lines 459-542)

Calendar dates are modelled as day numbers `d : Nat` counted from a Monday
epoch, so that `d % 7` is Python's `date.weekday()` (0 = Monday, ...,
5 = Saturday, 6 = Sunday) and `timedelta(days=1)` is `d + 1`. -/

/-- The `while future_date.weekday() >= 5: future_date += timedelta(days=1)`
loop, with explicit fuel (two steps always suffice). -/
def skipWeekendAux : Nat → Nat → Nat
  | 0, d => d
  | fuel + 1, d => if d % 7 ≥ 5 then skipWeekendAux fuel (d + 1) else d

/-- Advance a date past a weekend (identity on weekdays). -/
def skipWeekend (d : Nat) : Nat := skipWeekendAux 2 d

/-- The generated forecast dates: for `i in range(1, days_ahead + 1)`,
`last_date + timedelta(days=i)` pushed past any weekend.  Note that each
date is bumped independently of the previous one. -/
def futureDates (lastDate daysAhead : Nat) : List Nat :=
  (List.range daysAhead).map fun i => skipWeekend (lastDate + (i + 1))

/-- The per-step confidence `max(0.5, 1.0 - (i * 0.02))` (`i` 0-based). -/
def confidenceAt (i : Nat) : ℚ := max (1 / 2) (1 - (i : ℚ) * (2 / 100))

/-- The `prediction_data` list: `zip(future_dates, predictions)` enumerated,
each entry `(date, predicted_price, confidence)`. -/
def forecastEntries (lastDate : Nat) (predictions : List ℚ) (daysAhead : Nat) :
    List (Nat × ℚ × ℚ) :=
  (((futureDates lastDate daysAhead).zip predictions).enum).map fun e =>
    (e.2.1, e.2.2, confidenceAt e.1)

/-- `price_change_percent = (predicted - current) / current * 100`. -/
def priceChangePercent (currentPrice predictedPrice : ℚ) : ℚ :=
  (predictedPrice - currentPrice) / currentPrice * 100

/-- The tri-state recommendation:
`'BUY' if price_change_percent > 5 else 'SELL' if price_change_percent < -5 else 'HOLD'`. -/
def recommendation (pcp : ℚ) : String :=
  if pcp > 5 then "BUY" else if pcp < -5 then "SELL" else "HOLD"

/-! ## Models

The scikit-learn regressors are external library objects: what they learn
is data, not code of this repository, so a fit call is modelled as an
abstract function `fit : samples → targets → Except String predictor`
carried by the model instance (it may fail, like the real fit on
degenerate input, and its result is the learned per-sample predictor).
Everything around the fit calls — scaling, windowing, splitting, metric
computation, state updates, guards and exception handling — is translated
from the source. -/

/-- `sklearn.preprocessing.MinMaxScaler` (feature range (0,1)): scale by
`(x - min) / (max - min)`, where a zero range is replaced by 1
(`_handle_zeros_in_scale`). -/
def minmaxScale (mn mx x : ℚ) : ℚ :=
  (x - mn) / (if mx - mn = 0 then 1 else mx - mn)

/-- `MinMaxScaler.inverse_transform`. -/
def minmaxInv (mn mx x : ℚ) : ℚ :=
  x * (if mx - mn = 0 then 1 else mx - mn) + mn

/-- `np.min` of a nonempty column (what `MinMaxScaler.fit` learns). -/
def listMin (xs : List ℚ) : ℚ := xs.foldl min (xs.headD 0)

/-- `np.max` of a nonempty column. -/
def listMax (xs : List ℚ) : ℚ := xs.foldl max (xs.headD 0)

/-- `np.mean` of a rational list (junk 0 on the empty list, where numpy
would produce NaN; the claims do not evaluate means of empty lists). -/
def meanQ (xs : List ℚ) : ℚ := xs.sum / (xs.length : ℚ)

/-- Mean squared error of two aligned lists. -/
def mseQ (ys ps : List ℚ) : ℚ := meanQ (List.zipWith (fun a b => (a - b) ^ 2) ys ps)

/-- Mean absolute error. -/
def maeQ (ys ps : List ℚ) : ℚ := meanQ (List.zipWith (fun a b => |a - b|) ys ps)

/-- `np.mean(np.abs((y - p) / y)) * 100`. -/
def mapeQ (ys ps : List ℚ) : ℚ :=
  meanQ (List.zipWith (fun a b => |(a - b) / a|) ys ps) * 100

/-- The `TrainingHistory` dict returned by every train method. -/
structure TrainingHistory where
  final_mse : ℚ
  final_mae : ℚ
  accuracy : ℚ
  num_base_models : Option Nat
deriving Repr

/-- Python slice `xs[-k:]` (note `xs[-0:]` is the whole list). -/
def lastSlice (k : Nat) (xs : List ℚ) : List ℚ :=
  if k = 0 then xs else xs.drop (xs.length - k)

/-- `int(len * (1 - validation_split))`, the chronological split point
(truncation toward zero on the nonnegative values that occur here). -/
def splitPoint (len : Nat) (validationSplit : ℚ) : Nat :=
  (⌊(len : ℚ) * (1 - validationSplit)⌋).toNat

/-! ### `LSTMModel` (backend/models/lstm_model.py)

The "LSTM" is an `MLPRegressor` on flattened windows; its fit is the
abstract `mlpFit` field.  The model consumes the `Close` column. -/

/-- State of an `LSTMModel` instance. -/
structure LSTMModel where
  sequence_length : Nat
  mlpFit : List (List ℚ) → List ℚ → Except String (List ℚ → ℚ)
  net : Option (List ℚ → ℚ)
  scalerMin : ℚ
  scalerMax : ℚ
  is_trained : Bool
  accuracy : ℚ
  training_history : Option TrainingHistory

/-- `LSTMModel.__init__`. -/
def LSTMModel.init (sequence_length : Nat)
    (mlpFit : List (List ℚ) → List ℚ → Except String (List ℚ → ℚ)) : LSTMModel :=
  { sequence_length := sequence_length, mlpFit := mlpFit, net := none,
    scalerMin := 0, scalerMax := 1, is_trained := false, accuracy := 0,
    training_history := none }

/-- `LSTMModel.prepare_sequences` on a 1-feature series (each window is
flattened, i.e. the window itself): identical to
`DataProcessor.create_sequences`. -/
def LSTMModel.prepare_sequences (m : LSTMModel) (data : List ℚ) :
    List (List ℚ) × List ℚ :=
  create_sequences data m.sequence_length

/-- The scaled close column inside `train`
(`scaled_data = self.scaler.fit_transform(close_prices)`). -/
def lstmScaled (close : List ℚ) : List ℚ :=
  close.map (minmaxScale (listMin close) (listMax close))

/-- The windowed pairs `X, y` of `LSTMModel.train`. -/
def lstmXy (m : LSTMModel) (close : List ℚ) : List (List ℚ) × List ℚ :=
  m.prepare_sequences (lstmScaled close)

/-- The chronological split point `train_size` of `LSTMModel.train`. -/
def lstmTs (m : LSTMModel) (close : List ℚ) (vs : ℚ) : Nat :=
  splitPoint (lstmXy m close).1.length vs

/-- `y_val_actual` of `LSTMModel.train` (validation targets inverse-scaled
back to price units). -/
def lstmValActual (m : LSTMModel) (close : List ℚ) (vs : ℚ) : List ℚ :=
  ((lstmXy m close).2.drop (lstmTs m close vs)).map
    (minmaxInv (listMin close) (listMax close))

/-- `val_predictions` of `LSTMModel.train` for fitted regressor `f`. -/
def lstmValPred (m : LSTMModel) (close : List ℚ) (vs : ℚ) (f : List ℚ → ℚ) :
    List ℚ :=
  (((lstmXy m close).1.drop (lstmTs m close vs)).map f).map
    (minmaxInv (listMin close) (listMax close))

/-- `LSTMModel.train` (lines 35-80): scale the close column, window it,
split chronologically, fit, compute validation metrics in price units,
set the trained state.  Any failure is wrapped in
`"Error training model: ..."`. -/
def LSTMModel.train (m : LSTMModel) (close : List ℚ) (validation_split : ℚ) :
    Except String (LSTMModel × TrainingHistory) :=
  match (do
    if close.isEmpty then throw "Found array with 0 sample(s)"
    let f ← m.mlpFit ((lstmXy m close).1.take (lstmTs m close validation_split))
      ((lstmXy m close).2.take (lstmTs m close validation_split))
    let valPred := lstmValPred m close validation_split f
    let yValActual := lstmValActual m close validation_split
    let acc := max 0 (100 - mapeQ yValActual valPred)
    let hist : TrainingHistory :=
      { final_mse := mseQ yValActual valPred, final_mae := maeQ yValActual valPred,
        accuracy := acc, num_base_models := none }
    pure ({ m with
              net := some f
              scalerMin := listMin close
              scalerMax := listMax close
              is_trained := true
              accuracy := acc
              training_history := some hist }, hist) : Except String _) with
  | .ok r => .ok r
  | .error e => .error ("Error training model: " ++ e)

/-- The autoregressive loop of `LSTMModel.predict`: predict, append, roll
the window (`np.roll(cur, -1); cur[-1] = pred`).  Indexing `cur[-1]` on an
empty window is Python's IndexError. -/
def arLoop (f : List ℚ → ℚ) : Nat → List ℚ → Except String (List ℚ)
  | 0, _ => .ok []
  | n + 1, cur =>
    if cur.isEmpty then .error "index -1 is out of bounds" else
    let p := f cur
    do
      let rest ← arLoop f n (cur.tail ++ [p])
      pure (p :: rest)

/-- `LSTMModel.predict` (lines 82-125): fail fast when untrained,
otherwise scale, take the last `sequence_length` values, run the
autoregressive loop, inverse-scale.  Runtime failures are wrapped in
`"Error making predictions: ..."`. -/
def LSTMModel.predict (m : LSTMModel) (close : List ℚ) (days_ahead : Nat) :
    Except String (List ℚ) :=
  if !m.is_trained then .error "Model must be trained before making predictions"
  else
    match (do
      let f ← match m.net with
        | some f => pure f
        | none => throw "This MLPRegressor instance is not fitted yet"
      let scaled := close.map (minmaxScale m.scalerMin m.scalerMax)
      let lastSeq := lastSlice m.sequence_length scaled
      let preds ← arLoop f days_ahead lastSeq
      pure (preds.map (minmaxInv m.scalerMin m.scalerMax)) : Except String _) with
    | .ok r => .ok r
    | .error e => .error ("Error making predictions: " ++ e)

/-- `LSTMModel.get_accuracy`. -/
def LSTMModel.get_accuracy (m : LSTMModel) : ℚ :=
  if m.is_trained then m.accuracy else 0

/-! ### `AttentionModel` (backend/models/attention_model.py)

Variant B of the sequence learners: the window is augmented with
normalised positions and `exp`-weighted values.  `np.exp` is irrational,
so it is carried as an abstract field `expFn` (its values feed only the
abstract regressor). -/

/-- State of an `AttentionModel` instance. -/
structure AttentionModel where
  sequence_length : Nat
  gbFit : List (List ℚ) → List ℚ → Except String (List ℚ → ℚ)
  expFn : ℚ → ℚ
  net : Option (List ℚ → ℚ)
  scalerMin : ℚ
  scalerMax : ℚ
  is_trained : Bool
  accuracy : ℚ
  training_history : Option TrainingHistory

/-- `AttentionModel.__init__`. -/
def AttentionModel.init (sequence_length : Nat)
    (gbFit : List (List ℚ) → List ℚ → Except String (List ℚ → ℚ))
    (expFn : ℚ → ℚ) : AttentionModel :=
  { sequence_length := sequence_length, gbFit := gbFit, expFn := expFn,
    net := none, scalerMin := 0, scalerMax := 1, is_trained := false,
    accuracy := 0, training_history := none }

/-- The feature vector built from one window:
`concat [sequence, positions, sequence * exp(positions)]`
(attention_model.py lines 29-37 and 112-118). -/
def attentionFeatures (expFn : ℚ → ℚ) (sequence : List ℚ) : List ℚ :=
  let len := sequence.length
  let positions := (List.range len).map fun i => (i : ℚ) / (len : ℚ)
  let weighted := (List.range len).map fun i =>
    sequence.getD i 0 * expFn ((i : ℚ) / (len : ℚ))
  sequence ++ positions ++ weighted

/-- `AttentionModel.prepare_sequences`. -/
def AttentionModel.prepare_sequences (m : AttentionModel) (data : List ℚ) :
    List (List ℚ) × List ℚ :=
  let base := create_sequences data m.sequence_length
  (base.1.map (attentionFeatures m.expFn), base.2)

/-- The windowed pairs `X, y` of `AttentionModel.train`. -/
def attXy (m : AttentionModel) (close : List ℚ) : List (List ℚ) × List ℚ :=
  m.prepare_sequences (lstmScaled close)

/-- The chronological split point `train_size` of `AttentionModel.train`. -/
def attTs (m : AttentionModel) (close : List ℚ) (vs : ℚ) : Nat :=
  splitPoint (attXy m close).1.length vs

/-- `y_val_actual` of `AttentionModel.train`. -/
def attValActual (m : AttentionModel) (close : List ℚ) (vs : ℚ) : List ℚ :=
  ((attXy m close).2.drop (attTs m close vs)).map
    (minmaxInv (listMin close) (listMax close))

/-- `val_predictions` of `AttentionModel.train` for fitted regressor `f`. -/
def attValPred (m : AttentionModel) (close : List ℚ) (vs : ℚ) (f : List ℚ → ℚ) :
    List ℚ :=
  (((attXy m close).1.drop (attTs m close vs)).map f).map
    (minmaxInv (listMin close) (listMax close))

/-- `AttentionModel.train` (lines 42-87): same pipeline as the LSTM with
the augmented windows; failures wrapped in
`"Error training attention model: ..."`. -/
def AttentionModel.train (m : AttentionModel) (close : List ℚ)
    (validation_split : ℚ) : Except String (AttentionModel × TrainingHistory) :=
  match (do
    if close.isEmpty then throw "Found array with 0 sample(s)"
    let f ← m.gbFit ((attXy m close).1.take (attTs m close validation_split))
      ((attXy m close).2.take (attTs m close validation_split))
    let valPred := attValPred m close validation_split f
    let yValActual := attValActual m close validation_split
    let acc := max 0 (100 - mapeQ yValActual valPred)
    let hist : TrainingHistory :=
      { final_mse := mseQ yValActual valPred, final_mae := maeQ yValActual valPred,
        accuracy := acc, num_base_models := none }
    pure ({ m with
              net := some f
              scalerMin := listMin close
              scalerMax := listMax close
              is_trained := true
              accuracy := acc
              training_history := some hist }, hist) : Except String _) with
  | .ok r => .ok r
  | .error e => .error ("Error training attention model: " ++ e)

/-- The autoregressive loop of `AttentionModel.predict`: like the LSTM's
but the regressor sees the augmented features of the current window. -/
def attentionArLoop (expFn : ℚ → ℚ) (f : List ℚ → ℚ) :
    Nat → List ℚ → Except String (List ℚ)
  | 0, _ => .ok []
  | n + 1, cur =>
    if cur.isEmpty then .error "index -1 is out of bounds" else
    let p := f (attentionFeatures expFn cur)
    do
      let rest ← attentionArLoop expFn f n (cur.tail ++ [p])
      pure (p :: rest)

/-- `AttentionModel.predict` (lines 89-138). -/
def AttentionModel.predict (m : AttentionModel) (close : List ℚ)
    (days_ahead : Nat) : Except String (List ℚ) :=
  if !m.is_trained then .error "Model must be trained before making predictions"
  else
    match (do
      let f ← match m.net with
        | some f => pure f
        | none => throw "This GradientBoostingRegressor instance is not fitted yet"
      let scaled := close.map (minmaxScale m.scalerMin m.scalerMax)
      let lastSeq := lastSlice m.sequence_length scaled
      let preds ← attentionArLoop m.expFn f days_ahead lastSeq
      pure (preds.map (minmaxInv m.scalerMin m.scalerMax)) : Except String _) with
    | .ok r => .ok r
    | .error e => .error ("Error making predictions: " ++ e)

/-- `AttentionModel.get_accuracy`. -/
def AttentionModel.get_accuracy (m : AttentionModel) : ℚ :=
  if m.is_trained then m.accuracy else 0

/-! ### `EnsembleModel` (backend/models/ensemble_model.py)

The five scikit-learn tabular regressors and the XGBoost meta-learner are
library objects; each carries its abstract `fit` behaviour and its fitted
predictor (`none` before fitting, which is scikit-learn's NotFittedError
state).  `create_features` is the ensemble's own indicator catalogue
(lines 42-94) — note it ends in `dropna()`, unlike the Indicator Engine of
`data_processor.py`, which fills. -/

/-- One scikit-learn tabular regressor slot. -/
structure TabModel where
  fit : List (List ℚ) → List ℚ → Except String (List ℚ → ℚ)
  fitted : Option (List ℚ → ℚ)

/-- The columns built by `EnsembleModel.create_features` before the
`dropna()`, in source order (same formulas as the Indicator Engine where
the names coincide). -/
def createFeaturesRaw (sqrtFn : ℚ → ℚ) (df : OHLCV) : List (String × List PF) :=
  [("Open", qcol df.opn), ("High", qcol df.high), ("Low", qcol df.low),
   ("Close", qcol df.close), ("Volume", qcol df.volume),
   ("MA_5", smaCol 5 df), ("MA_10", smaCol 10 df),
   ("MA_20", smaCol 20 df), ("MA_50", smaCol 50 df),
   ("EMA_12", emaCol 12 df), ("EMA_26", emaCol 26 df),
   ("MACD", macdCol df), ("MACD_signal", macdSignalCol df),
   ("RSI", rsiCol df),
   ("BB_middle", bbMiddleCol df), ("BB_upper", bbUpperCol sqrtFn df),
   ("BB_lower", bbLowerCol sqrtFn df), ("BB_width", bbWidthCol sqrtFn df),
   ("BB_position", bbPositionCol sqrtFn df),
   ("Volatility", volatilityCol sqrtFn df),
   ("High_Low_Ratio", highLowRatioCol df),
   ("Close_Open_Ratio", closeOpenRatioCol df),
   ("Volume_MA", volumeSmaCol df), ("Volume_Ratio", volumeRatioCol df),
   ("Price_Change", priceMomentumCol 1 df),
   ("Price_Change_5", priceMomentumCol 5 df),
   ("Price_Change_10", priceMomentumCol 10 df)]

/-- The row indices kept by `df.dropna()`: rows where every column is
defined. -/
def ensKeptRows (sqrtFn : ℚ → ℚ) (df : OHLCV) : List Nat :=
  (List.range df.n).filter fun i =>
    (createFeaturesRaw sqrtFn df).all fun c => !(c.2.getD i PF.nan).isNan

/-- `EnsembleModel.create_features`: the raw frame restricted to the rows
that survive `dropna()`. -/
def create_features (sqrtFn : ℚ → ℚ) (df : OHLCV) : List (String × List PF) :=
  (createFeaturesRaw sqrtFn df).map fun c =>
    (c.1, (ensKeptRows sqrtFn df).map fun i => c.2.getD i PF.nan)

/-- `EnsembleModel.prepare_ensemble_data` (lines 96-107): `X` = the
non-OHLCV columns of the featured frame, row-major; `y` = its `Close`. -/
def prepare_ensemble_data (sqrtFn : ℚ → ℚ) (df : OHLCV) :
    List (List ℚ) × List ℚ :=
  let featCols := (createFeaturesRaw sqrtFn df).filter fun c =>
    !(["Open", "High", "Low", "Close", "Volume"].contains c.1)
  ((ensKeptRows sqrtFn df).map fun i =>
      featCols.map fun c => (c.2.getD i PF.nan).getQ,
   (ensKeptRows sqrtFn df).map fun i => df.close.getD i 0)

/-- `np.column_stack` of equal-length 1-D prediction arrays (row-major
result). -/
def columnStack (cols : List (List ℚ)) : List (List ℚ) :=
  (List.range (cols.headD []).length).map fun i => cols.map fun c => c.getD i 0

/-- `np.column_stack([A, B])` of two row-major matrices with equal row
count: rows concatenated. -/
def hstackRows (A B : List (List ℚ)) : List (List ℚ) :=
  (List.range A.length).map fun i => A.getD i [] ++ B.getD i []

/-- `np.diff`. -/
def listDiff (xs : List ℚ) : List ℚ := List.zipWith (fun a b => a - b) xs.tail xs

/-- State of an `EnsembleModel` instance.  `sqrtFn` is the ambient
`numpy.sqrt` stand-in used by its feature engineering. -/
structure EnsembleModel where
  sequence_length : Nat
  is_trained : Bool
  accuracy : ℚ
  lstm_model : LSTMModel
  attention_model : AttentionModel
  base_models : List TabModel
  metaFit : List (List ℚ) → List ℚ → List (List ℚ) → List ℚ →
    Except String (List ℚ → ℚ)
  metaNet : Option (List ℚ → ℚ)
  sqrtFn : ℚ → ℚ
  training_history : Option TrainingHistory

/-- `EnsembleModel.__init__` (lines 14-40): five freshly constructed
tabular regressors, one LSTM and one attention sequence learner, an
unfitted XGBoost meta-learner, untrained state. -/
def EnsembleModel.init (sequence_length : Nat)
    (rfFit gbFit adaFit bagFit etFit :
      List (List ℚ) → List ℚ → Except String (List ℚ → ℚ))
    (mlpFit attFit : List (List ℚ) → List ℚ → Except String (List ℚ → ℚ))
    (metaFit : List (List ℚ) → List ℚ → List (List ℚ) → List ℚ →
      Except String (List ℚ → ℚ))
    (expFn sqrtFn : ℚ → ℚ) : EnsembleModel :=
  { sequence_length := sequence_length, is_trained := false, accuracy := 0,
    lstm_model := LSTMModel.init sequence_length mlpFit,
    attention_model := AttentionModel.init sequence_length attFit expFn,
    base_models := [⟨rfFit, none⟩, ⟨gbFit, none⟩, ⟨adaFit, none⟩,
                    ⟨bagFit, none⟩, ⟨etFit, none⟩],
    metaFit := metaFit, metaNet := none, sqrtFn := sqrtFn,
    training_history := none }

/-- The `for model in self.base_models` loop (lines 124-133): fit each
tabular model on the training partition and collect its train and
validation predictions.  There is no exception handler around this loop:
a failing fit aborts it. -/
def fitTabular : List TabModel → List (List ℚ) → List ℚ → List (List ℚ) →
    Except String (List TabModel × List (List ℚ) × List (List ℚ))
  | [], _, _, _ => .ok ([], [], [])
  | tm :: rest, XTrain, yTrain, XVal => do
    let f ← tm.fit XTrain yTrain
    let r ← fitTabular rest XTrain yTrain XVal
    pure ({ tm with fitted := some f } :: r.1,
          XTrain.map f :: r.2.1, XVal.map f :: r.2.2)

/-- The `try: ... train LSTM ... except:` block (lines 135-165): train the
LSTM on the first `train_size + sequence_length` rows, take its
autoregressive predictions aligned to the two partitions; on any failure
substitute the partition's target mean (`np.full(len, np.mean(y))`).
Returns the (possibly updated) LSTM state and the two prediction columns. -/
def ensLstmBlock (lstm : LSTMModel) (close : List ℚ) (trainSize seqLen : Nat)
    (yTrain yVal : List ℚ) : LSTMModel × List ℚ × List ℚ :=
  match lstm.train (close.take (trainSize + seqLen)) (1 / 5) with
  | .error _ =>
    (lstm, List.replicate yTrain.length (meanQ yTrain),
     List.replicate yVal.length (meanQ yVal))
  | .ok (lstm2, _) =>
    match (do
      let tp ← lstm2.predict (close.take (trainSize + seqLen)) yTrain.length
      let vp ← lstm2.predict (close.take (trainSize + seqLen + yVal.length))
        yVal.length
      pure (tp, vp) : Except String _) with
    | .ok r => (lstm2, lastSlice yTrain.length r.1, lastSlice yVal.length r.2)
    | .error _ =>
      (lstm2, List.replicate yTrain.length (meanQ yTrain),
       List.replicate yVal.length (meanQ yVal))

/-- `X, y` as prepared at the top of `EnsembleModel.train`. -/
def ensXy (m : EnsembleModel) (data : OHLCV) : List (List ℚ) × List ℚ :=
  prepare_ensemble_data m.sqrtFn data

/-- The chronological split point of the ensemble's training call. -/
def ensTrainSize (m : EnsembleModel) (data : OHLCV) (vs : ℚ) : Nat :=
  splitPoint (ensXy m data).1.length vs

/-- The tabular-loop result of `EnsembleModel.train`. -/
def ensTabResult (m : EnsembleModel) (data : OHLCV) (vs : ℚ) :
    Except String (List TabModel × List (List ℚ) × List (List ℚ)) :=
  let Xy := ensXy m data
  let ts := ensTrainSize m data vs
  fitTabular m.base_models (Xy.1.take ts) (Xy.2.take ts) (Xy.1.drop ts)

/-- The LSTM-block result of `EnsembleModel.train`. -/
def ensLstmResult (m : EnsembleModel) (data : OHLCV) (vs : ℚ) :
    LSTMModel × List ℚ × List ℚ :=
  let Xy := ensXy m data
  let ts := ensTrainSize m data vs
  ensLstmBlock m.lstm_model data.close ts m.sequence_length
    (Xy.2.take ts) (Xy.2.drop ts)

/-- `base_predictions_train` as stacked by lines 121-168: the tabular
prediction columns followed by the (possibly fallback) LSTM column. -/
def ensBasePredsTrain (m : EnsembleModel) (data : OHLCV) (vs : ℚ) :
    Except String (List (List ℚ)) := do
  let tab ← ensTabResult m data vs
  pure (tab.2.1 ++ [(ensLstmResult m data vs).2.1])

/-- `base_predictions_val`. -/
def ensBasePredsVal (m : EnsembleModel) (data : OHLCV) (vs : ℚ) :
    Except String (List (List ℚ)) := do
  let tab ← ensTabResult m data vs
  pure (tab.2.2 ++ [(ensLstmResult m data vs).2.2])

/-- `stacked_train` (lines 167-172): the prediction columns stacked
horizontally, then the original feature columns appended. -/
def ensStackedTrain (m : EnsembleModel) (data : OHLCV) (vs : ℚ) :
    Except String (List (List ℚ)) := do
  let b ← ensBasePredsTrain m data vs
  pure (hstackRows (columnStack b) ((ensXy m data).1.take (ensTrainSize m data vs)))

/-- `stacked_val` (lines 169-173). -/
def ensStackedVal (m : EnsembleModel) (data : OHLCV) (vs : ℚ) :
    Except String (List (List ℚ)) := do
  let b ← ensBasePredsVal m data vs
  pure (hstackRows (columnStack b) ((ensXy m data).1.drop (ensTrainSize m data vs)))

/-- The body of `EnsembleModel.train` (lines 109-200), before the outer
exception wrapper. -/
def EnsembleModel.trainCore (m : EnsembleModel) (data : OHLCV) (vs : ℚ) :
    Except String (EnsembleModel × TrainingHistory) := do
  let Xy := ensXy m data
  let ts := ensTrainSize m data vs
  let yTrain := Xy.2.take ts
  let yVal := Xy.2.drop ts
  let tab ← ensTabResult m data vs
  let lstmRes := ensLstmResult m data vs
  let stackedTrain ← ensStackedTrain m data vs
  let stackedVal ← ensStackedVal m data vs
  let metaF ← m.metaFit stackedTrain yTrain stackedVal yVal
  let valPredictions := stackedVal.map metaF
  let acc := max 0 (100 - mapeQ yVal valPredictions)
  let hist : TrainingHistory :=
    { final_mse := mseQ yVal valPredictions
      final_mae := maeQ yVal valPredictions
      accuracy := acc
      num_base_models := some (m.base_models.length + 1) }
  pure ({ m with
            is_trained := true
            accuracy := acc
            base_models := tab.1
            lstm_model := lstmRes.1
            metaNet := some metaF
            training_history := some hist }, hist)

/-- `EnsembleModel.train`: the body under the outer
`except Exception as e: raise Exception(f"Error training ensemble model: ...")`. -/
def EnsembleModel.train (m : EnsembleModel) (data : OHLCV) (vs : ℚ) :
    Except String (EnsembleModel × TrainingHistory) :=
  match m.trainCore data vs with
  | .ok r => .ok r
  | .error e => .error ("Error training ensemble model: " ++ e)

/-- The per-model single predictions of `EnsembleModel.predict`
(lines 217-221): each fitted tabular model applied to the last feature
row (`X[-1:]`; reshaping an empty `X` is an error). -/
def tabSinglePreds : List TabModel → List (List ℚ) → Except String (List ℚ)
  | [], _ => .ok []
  | tm :: rest, X => do
    if X.isEmpty then throw "cannot reshape array of size 0 into shape (1,-1)"
    let f ← match tm.fitted with
      | some f => pure f
      | none => throw "This estimator instance is not fitted yet"
    let r ← tabSinglePreds rest X
    pure (f (X.getLastD []) :: r)

/-- `EnsembleModel.predict` (lines 205-261): fail fast when untrained;
otherwise one stacked meta-prediction per horizon step from the LSTM
forecast, falling back to linear trend continuation when the LSTM path
fails.  Runtime failures are wrapped in `"Error making predictions: ..."`. -/
def EnsembleModel.predict (m : EnsembleModel) (data : OHLCV) (days_ahead : Nat) :
    Except String (List ℚ) :=
  if !m.is_trained then .error "Model must be trained before making predictions"
  else
    match (do
      let Xy := prepare_ensemble_data m.sqrtFn data
      let X := Xy.1
      let y := Xy.2
      let tabPreds ← tabSinglePreds m.base_models X
      match (do
        let lstmP ← m.lstm_model.predict data.close days_ahead
        let metaF ← match m.metaNet with
          | some f => pure f
          | none => throw "This XGBRegressor instance is not fitted yet"
        pure ((List.range days_ahead).map fun i =>
          metaF (tabPreds ++ [lstmP.getD i 0] ++ X.getLastD [])) :
          Except String _) with
      | .ok preds => pure preds
      | .error _ =>
        if y.isEmpty then throw "index -1 is out of bounds"
        let cur := y.getLastD 0
        let trend := meanQ (listDiff (lastSlice 10 y))
        pure ((List.range days_ahead).map fun i => cur + trend * ((i : ℚ) + 1)) :
      Except String _) with
    | .ok r => .ok r
    | .error e => .error ("Error making predictions: " ++ e)

/-- `EnsembleModel.get_accuracy` (lines 263-265). -/
def EnsembleModel.get_accuracy (m : EnsembleModel) : ℚ :=
  if m.is_trained then m.accuracy else 0

/-! ## Concrete instances (for counterexamples and witnesses) -/

/-- An always-succeeding abstract regressor fit (constant predictor). -/
def demoFit : List (List ℚ) → List ℚ → Except String (List ℚ → ℚ) :=
  fun _ _ => .ok (fun _ => 1 / 2)

/-- An abstract fit that throws, as a degenerate regressor would. -/
def demoFailFit : List (List ℚ) → List ℚ → Except String (List ℚ → ℚ) :=
  fun _ _ => .error "boom"

/-- An always-succeeding abstract meta-learner fit. -/
def demoMetaFit : List (List ℚ) → List ℚ → List (List ℚ) → List ℚ →
    Except String (List ℚ → ℚ) :=
  fun _ _ _ _ => .ok (fun _ => 3)

/-- A stand-in for `np.exp` (only its values at the attention features
matter, and they feed an abstract regressor). -/
def demoExp : ℚ → ℚ := fun q => 1 + q

/-- A tiny three-row OHLCV frame. -/
def demoDf : OHLCV := ⟨[1, 2, 3], [1, 2, 3], [1, 2, 3], [1, 2, 3], [1, 2, 3]⟩

/-- A six-row close column. -/
def demoClose : List ℚ := [1, 2, 3, 4, 5, 6]

/-- Sixteen rows of strictly increasing prices: every delta is a gain, so
the 14-period average loss is 0 while the average gain is positive. -/
def rsiProbeDf : OHLCV :=
  let c : List ℚ := [1, 2, 3, 4, 5, 6, 7, 8, 9, 10, 11, 12, 13, 14, 15, 16]
  ⟨c, c, c, c, c⟩

/-- Fifty-one rows of a constant price: a valid OHLCV series of length
greater than 50 on which every Bollinger window has zero width. -/
def constDf : OHLCV :=
  ⟨List.replicate 51 10, List.replicate 51 10, List.replicate 51 10,
   List.replicate 51 10, List.replicate 51 100⟩

/-- A fresh sequence-length-2 LSTM with the demo fit. -/
def lstmDemo : LSTMModel := LSTMModel.init 2 demoFit

/-- A fresh sequence-length-2 attention model with the demo fit. -/
def attDemo : AttentionModel := AttentionModel.init 2 demoFit demoExp

/-- A fresh ensemble whose base fits all succeed. -/
def ensDemo : EnsembleModel :=
  EnsembleModel.init 2 demoFit demoFit demoFit demoFit demoFit demoFit demoFit
    demoMetaFit demoExp id

/-- An ensemble whose *first tabular* learner throws during fit (all other
learners and the meta-learner are fine). -/
def ensTabFailDemo : EnsembleModel :=
  EnsembleModel.init 2 demoFailFit demoFit demoFit demoFit demoFit demoFit
    demoFit demoMetaFit demoExp id

/-- An ensemble whose *sequence learner* (the MLP inside the LSTM wrapper)
throws during fit; everything else is fine. -/
def ensLstmFailDemo : EnsembleModel :=
  EnsembleModel.init 2 demoFit demoFit demoFit demoFit demoFit demoFailFit
    demoFit demoMetaFit demoExp id

/-- The result of the demo LSTM training (a successful run, extracted). -/
def lstmDemoRes : LSTMModel × TrainingHistory :=
  (lstmDemo.train demoClose (1 / 5)).toOption.getD (lstmDemo, ⟨0, 0, 0, none⟩)

/-- The result of the demo attention training. -/
def attDemoRes : AttentionModel × TrainingHistory :=
  (attDemo.train demoClose (1 / 5)).toOption.getD (attDemo, ⟨0, 0, 0, none⟩)

/-- The result of the demo ensemble training. -/
def ensDemoRes : EnsembleModel × TrainingHistory :=
  (ensDemo.train demoDf (1 / 5)).toOption.getD (ensDemo, ⟨0, 0, 0, none⟩)

/-- The result of the demo ensemble training with the failing LSTM. -/
def ensLstmFailRes : EnsembleModel × TrainingHistory :=
  (ensLstmFailDemo.train demoDf (1 / 5)).toOption.getD
    (ensLstmFailDemo, ⟨0, 0, 0, none⟩)

/-- The tabular-loop result of the demo ensemble training. -/
def ensDemoTab : List TabModel × List (List ℚ) × List (List ℚ) :=
  (ensTabResult ensDemo demoDf (1 / 5)).toOption.getD ([], [], [])

/-- The tabular-loop result of the failing-LSTM demo. -/
def ensLstmFailTab : List TabModel × List (List ℚ) × List (List ℚ) :=
  (ensTabResult ensLstmFailDemo demoDf (1 / 5)).toOption.getD ([], [], [])

/-- The stacked training matrix of the failing-LSTM demo. -/
def ensLstmFailStT : List (List ℚ) :=
  (ensStackedTrain ensLstmFailDemo demoDf (1 / 5)).toOption.getD []

/-- The stacked validation matrix of the failing-LSTM demo. -/
def ensLstmFailStV : List (List ℚ) :=
  (ensStackedVal ensLstmFailDemo demoDf (1 / 5)).toOption.getD []

/-! ## Basic lemmas: lengths and indexing of the column combinators -/

theorem getD_range_map {α : Type} (g : Nat → α) (n i : Nat) (h : i < n) (d : α) :
    (((List.range n).map g).getD i d) = g i := by
  rw [List.getD_eq_getElem?_getD, List.getElem?_map, List.getElem?_range h]
  rfl

theorem getD_map_lt {α β : Type} (f : α → β) (l : List α) (i : Nat)
    (h : i < l.length) (d : β) (d' : α) :
    (l.map f).getD i d = f (l.getD i d') := by
  rw [List.getD_eq_getElem?_getD, List.getElem?_map,
    List.getElem?_eq_getElem h, List.getD_eq_getElem?_getD,
    List.getElem?_eq_getElem h]
  rfl

@[simp] theorem qcol_length (xs : List ℚ) : (qcol xs).length = xs.length := by
  simp [qcol]

@[simp] theorem rollingPF_length (w : Nat) (f : List PF → PF) (xs : List PF) :
    (rollingPF w f xs).length = xs.length := by simp [rollingPF]

@[simp] theorem pw_length (f : PF → PF → PF) (a b : List PF) :
    (pw f a b).length = a.length := by simp [pw]

@[simp] theorem diffPF_length (xs : List ℚ) : (diffPF xs).length = xs.length := by
  simp [diffPF]

@[simp] theorem shiftPF_length (k : Nat) (xs : List ℚ) :
    (shiftPF k xs).length = xs.length := by simp [shiftPF]

@[simp] theorem pctChangePF_length (k : Nat) (xs : List ℚ) :
    (pctChangePF k xs).length = xs.length := by simp [pctChangePF]

@[simp] theorem ewmQ_length (s : Nat) (xs : List ℚ) :
    (ewmQ s xs).length = xs.length := by simp [ewmQ]

@[simp] theorem cumsumPF_length (xs : List PF) :
    (cumsumPF xs).length = xs.length := by simp [cumsumPF]

@[simp] theorem fillZero_length (xs : List PF) :
    (fillZero xs).length = xs.length := by simp [fillZero]

theorem ffillAux_length (xs : List PF) : ∀ last, (ffillAux last xs).length = xs.length := by
  induction xs with
  | nil => intro last; rfl
  | cons x rest ih =>
    intro last
    by_cases hx : x.isNan <;> cases last <;> simp [ffillAux, hx, ih]

@[simp] theorem ffill_length (xs : List PF) : (ffill xs).length = xs.length :=
  ffillAux_length xs none

@[simp] theorem bfill_length (xs : List PF) : (bfill xs).length = xs.length := by
  induction xs with
  | nil => rfl
  | cons x rest ih => simp [bfill, ih]

@[simp] theorem fillCol_length (xs : List PF) : (fillCol xs).length = xs.length := by
  simp [fillCol]

@[simp] theorem smaCol_length (w : Nat) (df : OHLCV) :
    (smaCol w df).length = df.n := by simp [smaCol, OHLCV.n]

@[simp] theorem emaCol_length (s : Nat) (df : OHLCV) :
    (emaCol s df).length = df.n := by simp [emaCol, OHLCV.n]

@[simp] theorem macdQ_length (df : OHLCV) : (macdQ df).length = df.n := by
  simp [macdQ, OHLCV.n]

@[simp] theorem macdCol_length (df : OHLCV) : (macdCol df).length = df.n := by
  simp [macdCol, OHLCV.n]

@[simp] theorem macdSignalCol_length (df : OHLCV) :
    (macdSignalCol df).length = df.n := by simp [macdSignalCol, OHLCV.n]

@[simp] theorem macdHistogramCol_length (df : OHLCV) :
    (macdHistogramCol df).length = df.n := by simp [macdHistogramCol]

@[simp] theorem deltaCol_length (df : OHLCV) : (deltaCol df).length = df.n := by
  simp [deltaCol, OHLCV.n]

@[simp] theorem gainCol_length (df : OHLCV) : (gainCol df).length = df.n := by
  simp [gainCol]

@[simp] theorem lossCol_length (df : OHLCV) : (lossCol df).length = df.n := by
  simp [lossCol]

@[simp] theorem rsCol_length (df : OHLCV) : (rsCol df).length = df.n := by
  simp [rsCol]

@[simp] theorem rsiCol_length (df : OHLCV) : (rsiCol df).length = df.n := by
  simp [rsiCol]

@[simp] theorem bbMiddleCol_length (df : OHLCV) :
    (bbMiddleCol df).length = df.n := by simp [bbMiddleCol, OHLCV.n]

@[simp] theorem bbStdCol_length (sq : ℚ → ℚ) (df : OHLCV) :
    (bbStdCol sq df).length = df.n := by simp [bbStdCol, OHLCV.n]

@[simp] theorem bbUpperCol_length (sq : ℚ → ℚ) (df : OHLCV) :
    (bbUpperCol sq df).length = df.n := by simp [bbUpperCol]

@[simp] theorem bbLowerCol_length (sq : ℚ → ℚ) (df : OHLCV) :
    (bbLowerCol sq df).length = df.n := by simp [bbLowerCol]

@[simp] theorem bbWidthCol_length (sq : ℚ → ℚ) (df : OHLCV) :
    (bbWidthCol sq df).length = df.n := by simp [bbWidthCol]

@[simp] theorem bbPositionCol_length (sq : ℚ → ℚ) (df : OHLCV) :
    (bbPositionCol sq df).length = df.n := by simp [bbPositionCol, OHLCV.n]

@[simp] theorem lowestLowCol_length (df : OHLCV) :
    (lowestLowCol df).length = df.low.length := by simp [lowestLowCol]

@[simp] theorem highestHighCol_length (df : OHLCV) :
    (highestHighCol df).length = df.high.length := by simp [highestHighCol]

@[simp] theorem stochKCol_length (df : OHLCV) :
    (stochKCol df).length = df.n := by simp [stochKCol, OHLCV.n]

@[simp] theorem stochDCol_length (df : OHLCV) :
    (stochDCol df).length = df.n := by simp [stochDCol]

@[simp] theorem trueRangeCol_length (df : OHLCV) :
    (trueRangeCol df).length = df.high.length := by simp [trueRangeCol]

@[simp] theorem atrCol_length (df : OHLCV) :
    (atrCol df).length = df.high.length := by simp [atrCol]

@[simp] theorem volumeSmaCol_length (df : OHLCV) :
    (volumeSmaCol df).length = df.volume.length := by simp [volumeSmaCol]

@[simp] theorem volumeRatioCol_length (df : OHLCV) :
    (volumeRatioCol df).length = df.volume.length := by simp [volumeRatioCol]

@[simp] theorem priceMomentumCol_length (k : Nat) (df : OHLCV) :
    (priceMomentumCol k df).length = df.n := by simp [priceMomentumCol, OHLCV.n]

@[simp] theorem volatilityCol_length (sq : ℚ → ℚ) (df : OHLCV) :
    (volatilityCol sq df).length = df.n := by simp [volatilityCol, OHLCV.n]

@[simp] theorem highLowRatioCol_length (df : OHLCV) :
    (highLowRatioCol df).length = df.high.length := by simp [highLowRatioCol]

@[simp] theorem closeOpenRatioCol_length (df : OHLCV) :
    (closeOpenRatioCol df).length = df.n := by simp [closeOpenRatioCol, OHLCV.n]

@[simp] theorem williamsRCol_length (df : OHLCV) :
    (williamsRCol df).length = df.high.length := by simp [williamsRCol]

@[simp] theorem tpQ_length (df : OHLCV) : (tpQ df).length = df.n := by
  simp [tpQ, OHLCV.n]

@[simp] theorem smaTpCol_length (df : OHLCV) : (smaTpCol df).length = df.n := by
  simp [smaTpCol]

@[simp] theorem meanDevCol_length (df : OHLCV) : (meanDevCol df).length = df.n := by
  simp [meanDevCol]

@[simp] theorem cciCol_length (df : OHLCV) : (cciCol df).length = df.n := by
  simp [cciCol]

@[simp] theorem rocCol_length (df : OHLCV) : (rocCol df).length = df.n := by
  simp [rocCol, OHLCV.n]

@[simp] theorem obvCol_length (df : OHLCV) : (obvCol df).length = df.n := by
  simp [obvCol, OHLCV.n]

@[simp] theorem moneyFlowQ_length (df : OHLCV) :
    (moneyFlowQ df).length = df.n := by simp [moneyFlowQ, OHLCV.n]

@[simp] theorem positiveFlowCol_length (df : OHLCV) :
    (positiveFlowCol df).length = df.n := by simp [positiveFlowCol, OHLCV.n]

@[simp] theorem negativeFlowCol_length (df : OHLCV) :
    (negativeFlowCol df).length = df.n := by simp [negativeFlowCol, OHLCV.n]

@[simp] theorem mfiRatioCol_length (df : OHLCV) :
    (mfiRatioCol df).length = df.n := by simp [mfiRatioCol]

@[simp] theorem mfiCol_length (df : OHLCV) : (mfiCol df).length = df.n := by
  simp [mfiCol]

/-! ## Behaviour of the fill policy -/

theorem firstVal_spec (xs : List PF) (h : ∃ x ∈ xs, x.isNan = false) :
    ∃ w, firstVal xs = some w ∧ w.isNan = false := by
  unfold firstVal
  rcases h with ⟨x, hx, hnx⟩
  cases hf : xs.find? (fun x => !x.isNan) with
  | none =>
    rw [List.find?_eq_none] at hf
    exact absurd (by simpa using hf x hx) (by simp [hnx])
  | some w =>
    refine ⟨w, rfl, ?_⟩
    simpa using List.find?_some hf

theorem ffillAux_exists (xs : List PF) : ∀ last, (∃ x ∈ xs, x.isNan = false) →
    ∃ z ∈ ffillAux last xs, z.isNan = false := by
  induction xs with
  | nil => intro last h; simp at h
  | cons x rest ih =>
    intro last h
    by_cases hx : x.isNan
    · have hr : ∃ z ∈ rest, z.isNan = false := by
        rcases h with ⟨z, hz, hnz⟩
        rcases List.mem_cons.mp hz with rfl | hz'
        · exact absurd hx (by simp [hnz])
        · exact ⟨z, hz', hnz⟩
      cases last with
      | none =>
        rcases ih none hr with ⟨z, hz, hnz⟩
        exact ⟨z, by simp [ffillAux, hx]; exact Or.inr hz, hnz⟩
      | some v =>
        rcases ih (some v) hr with ⟨z, hz, hnz⟩
        exact ⟨z, by simp [ffillAux, hx]; exact Or.inr hz, hnz⟩
    · exact ⟨x, by simp [ffillAux, hx], by simpa using hx⟩

theorem bfill_ffillAux_noNan (xs : List PF) : ∀ last,
    (∀ v, last = some v → v.isNan = false) →
    ((∃ x ∈ xs, x.isNan = false) ∨ last ≠ none) →
    ∀ y ∈ bfill (ffillAux last xs), y.isNan = false := by
  induction xs with
  | nil => intro last _ _ y hy; simp [ffillAux, bfill] at hy
  | cons x rest ih =>
    intro last hlast hex y hy
    by_cases hx : x.isNan
    · cases last with
      | some v =>
        have hv : v.isNan = false := hlast v rfl
        rw [show ffillAux (some v) (x :: rest) = v :: ffillAux (some v) rest by
              simp [ffillAux, hx]] at hy
        rw [show bfill (v :: ffillAux (some v) rest) =
              v :: bfill (ffillAux (some v) rest) by simp [bfill, hv]] at hy
        rcases List.mem_cons.mp hy with rfl | hy'
        · exact hv
        · exact ih (some v) (by intro w hw; cases hw; exact hv) (Or.inr (by simp)) y hy'
      | none =>
        have hr : ∃ z ∈ rest, z.isNan = false := by
          rcases hex with ⟨z, hz, hnz⟩ | hne
          · rcases List.mem_cons.mp hz with rfl | hz'
            · exact absurd hx (by simp [hnz])
            · exact ⟨z, hz', hnz⟩
          · exact absurd rfl hne
        rw [show ffillAux none (x :: rest) = x :: ffillAux none rest by
              simp [ffillAux, hx]] at hy
        rw [show bfill (x :: ffillAux none rest) =
              ((firstVal (ffillAux none rest)).getD x) :: bfill (ffillAux none rest) by
              simp [bfill, hx]] at hy
        rcases List.mem_cons.mp hy with rfl | hy'
        · rcases firstVal_spec _ (ffillAux_exists rest none hr) with ⟨w, hw, hnw⟩
          simpa [hw] using hnw
        · exact ih none (by intro w hw; cases hw) (Or.inl hr) y hy'
    · have hnx : x.isNan = false := by simpa using hx
      rw [show ffillAux last (x :: rest) = x :: ffillAux (some x) rest by
            simp [ffillAux, hx]] at hy
      rw [show bfill (x :: ffillAux (some x) rest) =
            x :: bfill (ffillAux (some x) rest) by simp [bfill, hnx]] at hy
      rcases List.mem_cons.mp hy with rfl | hy'
      · exact hnx
      · exact ih (some x) (by intro w hw; cases hw; exact hnx) (Or.inr (by simp)) y hy'

theorem fillCol_noNan (xs : List PF) (h : ∃ x ∈ xs, x.isNan = false) :
    ∀ y ∈ fillCol xs, y.isNan = false :=
  bfill_ffillAux_noNan xs none (by intro v hv; cases hv) (Or.inl h)

theorem ffillAux_allNan (xs : List PF) (h : ∀ x ∈ xs, x.isNan = true) :
    ffillAux none xs = xs := by
  induction xs with
  | nil => rfl
  | cons x rest ih =>
    have hx := h x (by simp)
    simp [ffillAux, hx]
    exact ih fun z hz => h z (by simp [hz])

theorem bfill_allNan (xs : List PF) (h : ∀ x ∈ xs, x.isNan = true) :
    bfill xs = xs := by
  induction xs with
  | nil => rfl
  | cons x rest ih =>
    have hx := h x (by simp)
    have hrest : ∀ z ∈ rest, z.isNan = true := fun z hz => h z (by simp [hz])
    have hfv : firstVal rest = none := by
      unfold firstVal
      rw [List.find?_eq_none]
      intro z hz
      simp [hrest z hz]
    simp [bfill, hx, hfv, ih hrest]

theorem fillCol_allNan (xs : List PF) (h : ∀ x ∈ xs, x.isNan = true) :
    fillCol xs = xs := by
  unfold fillCol ffill
  rw [ffillAux_allNan xs h, bfill_allNan xs h]

/-- A filled column is all-NaN or NaN-free: if any entry of `fillCol xs`
is defined then every entry is. -/
theorem fillCol_dichotomy (xs : List PF) (h : ∃ y ∈ fillCol xs, y.isNan = false) :
    ∀ y ∈ fillCol xs, y.isNan = false := by
  by_cases hx : ∃ x ∈ xs, x.isNan = false
  · exact fillCol_noNan xs hx
  · have hall : ∀ x ∈ xs, x.isNan = true := by
      intro x hxm
      rcases Bool.eq_false_or_eq_true x.isNan with ht | hf
      · exact ht
      · exact absurd ⟨x, hxm, hf⟩ hx
    rw [fillCol_allNan xs hall] at h ⊢
    rcases h with ⟨y, hy, hny⟩
    exact absurd (hall y hy) (by simp [hny])

theorem getD_range'_map {α : Type} (g : Nat → α) (s n i : Nat) (h : i < n) (d : α) :
    (((List.range' s n).map g).getD i d) = g (s + i) := by
  rw [List.getD_eq_getElem?_getD, List.getElem?_map, List.getElem?_range']
  · simp
  · simpa using h

/-- C6: for every window length `L` and value series of length `N`: when
`N > L` the Sequence Windower produces exactly `N - L` pairs, the pair for
each `i ∈ [L, N)` being the window `values[i-L:i]` (of length `L`) and the
target `values[i]`; when `N ≤ L` it produces empty output (no exception is
involved: the windower is total). -/
theorem claim_C6 (values : List ℚ) (L : Nat) :
    (values.length > L →
      (create_sequences values L).1.length = values.length - L ∧
      (create_sequences values L).2.length = values.length - L ∧
      (∀ i, L ≤ i → i < values.length →
        (create_sequences values L).1.getD (i - L) [] =
          (values.drop (i - L)).take L ∧
        ((create_sequences values L).1.getD (i - L) []).length = L ∧
        (create_sequences values L).2.getD (i - L) 0 = values.getD i 0)) ∧
    (values.length ≤ L →
      (create_sequences values L).1 = [] ∧ (create_sequences values L).2 = []) := by
  constructor
  · intro hNL
    refine ⟨by simp [create_sequences], by simp [create_sequences], ?_⟩
    intro i hLi hiN
    have hlt : i - L < values.length - L := by omega
    have hsum : L + (i - L) = i := by omega
    have h1 : (create_sequences values L).1.getD (i - L) [] =
        (values.drop (i - L)).take L := by
      unfold create_sequences
      rw [getD_range'_map _ L _ _ hlt, hsum]
    refine ⟨h1, ?_, ?_⟩
    · rw [h1]
      rw [List.length_take, List.length_drop]
      omega
    · unfold create_sequences
      rw [getD_range'_map _ L _ _ hlt, hsum]
  · intro hLe
    have hz : values.length - L = 0 := by omega
    constructor <;> simp [create_sequences, hz]

/-- Witness for C6 at `values = [1,2,3,4,5]`, `L = 2`, `i = 3`. -/
theorem claim_C6_witness :
    (create_sequences ([1, 2, 3, 4, 5] : List ℚ) 2).1.length =
      ([1, 2, 3, 4, 5] : List ℚ).length - 2 ∧
    (create_sequences ([1, 2, 3, 4, 5] : List ℚ) 2).1.getD 1 [] =
      ((([1, 2, 3, 4, 5] : List ℚ).drop 1).take 2) ∧
    (create_sequences ([1, 2, 3, 4, 5] : List ℚ) 2).2.getD 1 0 =
      ([1, 2, 3, 4, 5] : List ℚ).getD 3 0 ∧
    (create_sequences ([1, 2] : List ℚ) 5).1 = [] :=
  ⟨((claim_C6 [1, 2, 3, 4, 5] 2).1 (by decide)).1,
   ((((claim_C6 [1, 2, 3, 4, 5] 2).1 (by decide)).2.2 3 (by decide) (by decide)).1),
   ((((claim_C6 [1, 2, 3, 4, 5] 2).1 (by decide)).2.2 3 (by decide) (by decide)).2.2),
   ((claim_C6 [1, 2] 5).2 (by decide)).1⟩

/-- C9: the recommendation is exactly BUY when the percent change exceeds
+5, SELL when it is below -5, HOLD otherwise; and from current price 100,
a horizon-end prediction of 106 gives BUY, 94 gives SELL, 101 gives HOLD. -/
theorem claim_C9 :
    (∀ pcp : ℚ, (recommendation pcp = "BUY" ↔ pcp > 5) ∧
      (recommendation pcp = "SELL" ↔ pcp < -5) ∧
      (recommendation pcp = "HOLD" ↔ ¬ pcp > 5 ∧ ¬ pcp < -5)) ∧
    recommendation (priceChangePercent 100 106) = "BUY" ∧
    recommendation (priceChangePercent 100 94) = "SELL" ∧
    recommendation (priceChangePercent 100 101) = "HOLD" ∧
    priceChangePercent 100 106 = 6 := by
  have hmain : ∀ pcp : ℚ, (recommendation pcp = "BUY" ↔ pcp > 5) ∧
      (recommendation pcp = "SELL" ↔ pcp < -5) ∧
      (recommendation pcp = "HOLD" ↔ ¬ pcp > 5 ∧ ¬ pcp < -5) := by
    intro pcp
    unfold recommendation
    split_ifs with h1 h2
    all_goals refine ⟨?_, ?_, ?_⟩
    all_goals simp_all
    all_goals linarith
  refine ⟨hmain, ?_, ?_, ?_, ?_⟩
  all_goals
    simp only [recommendation, priceChangePercent]
    norm_num

/-! ## Forecast-driver lemmas -/

/-- Normal form of the `prediction_data` list when the model supplied
exactly `days_ahead` predictions. -/
theorem forecastEntries_eq (lastDate daysAhead : Nat) (preds : List ℚ)
    (h : preds.length = daysAhead) :
    forecastEntries lastDate preds daysAhead =
      (List.range daysAhead).map fun i =>
        (skipWeekend (lastDate + (i + 1)), preds.getD i 0, confidenceAt i) := by
  apply List.ext_getElem
  · simp [forecastEntries, futureDates, h]
  · intro i h1 h2
    have hi : i < daysAhead := by simpa using h2
    have hip : i < preds.length := by omega
    simp only [forecastEntries, futureDates, List.getElem_map, List.getElem_enum,
      List.getElem_zip, List.getElem_range]
    rw [List.getD_eq_getElem _ _ hip]

/-- Two iterations of the weekend-skip loop, unfolded. -/
theorem skipWeekend_eq (d : Nat) :
    skipWeekend d =
      if d % 7 ≥ 5 then (if (d + 1) % 7 ≥ 5 then d + 2 else d + 1) else d := by
  unfold skipWeekend
  simp only [skipWeekendAux]

/-- The weekend-skip loop lands on a weekday. -/
theorem skipWeekend_weekday (d : Nat) : skipWeekend d % 7 < 5 := by
  rw [skipWeekend_eq]
  split_ifs <;> omega

/-- The weekend-skip loop is monotone. -/
theorem skipWeekend_mono {a b : Nat} (h : a ≤ b) : skipWeekend a ≤ skipWeekend b := by
  rw [skipWeekend_eq, skipWeekend_eq]
  split_ifs <;> omega

/-- C8: each forecast entry's confidence is `max(0.5, 1 - 0.02 i)`; hence
along any horizon the confidence sequence starts at 1, never increases,
and never drops below 1/2. -/
theorem claim_C8 (lastDate daysAhead : Nat) (preds : List ℚ)
    (h : preds.length = daysAhead) :
    (∀ i, i < daysAhead →
      ((forecastEntries lastDate preds daysAhead).getD i (0, 0, 0)).2.2 =
        max (1 / 2) (1 - (i : ℚ) * (2 / 100))) ∧
    (∀ i j, i ≤ j → j < daysAhead →
      ((forecastEntries lastDate preds daysAhead).getD j (0, 0, 0)).2.2 ≤
        ((forecastEntries lastDate preds daysAhead).getD i (0, 0, 0)).2.2) ∧
    (∀ e ∈ forecastEntries lastDate preds daysAhead, (1 : ℚ) / 2 ≤ e.2.2) ∧
    (0 < daysAhead →
      ((forecastEntries lastDate preds daysAhead).getD 0 (0, 0, 0)).2.2 = 1) := by
  have hconf : ∀ i, i < daysAhead →
      ((forecastEntries lastDate preds daysAhead).getD i (0, 0, 0)).2.2 =
        confidenceAt i := by
    intro i hi
    rw [forecastEntries_eq lastDate daysAhead preds h, getD_range_map _ _ _ hi]
  have hmono : ∀ i j : Nat, i ≤ j → confidenceAt j ≤ confidenceAt i := by
    intro i j hij
    unfold confidenceAt
    apply max_le_max le_rfl
    have : (i : ℚ) ≤ (j : ℚ) := by exact_mod_cast hij
    nlinarith
  refine ⟨fun i hi => by rw [hconf i hi]; rfl, ?_, ?_, ?_⟩
  · intro i j hij hj
    rw [hconf i (by omega), hconf j hj]
    exact hmono i j hij
  · intro e he
    rw [forecastEntries_eq lastDate daysAhead preds h] at he
    rcases List.mem_map.mp he with ⟨i, _, rfl⟩
    exact le_max_left _ _
  · intro hpos
    rw [hconf 0 hpos]
    unfold confidenceAt
    norm_num

/-- Witness for C8 at `lastDate = 0`, two predictions. -/
theorem claim_C8_witness :
    ((forecastEntries 0 [5, 6] 2).getD 1 (0, 0, 0)).2.2 =
      max (1 / 2) (1 - (1 : ℚ) * (2 / 100)) ∧
    ((forecastEntries 0 [5, 6] 2).getD 1 (0, 0, 0)).2.2 ≤
      ((forecastEntries 0 [5, 6] 2).getD 0 (0, 0, 0)).2.2 ∧
    ((forecastEntries 0 [5, 6] 2).getD 0 (0, 0, 0)).2.2 = 1 :=
  ⟨(claim_C8 0 2 [5, 6] rfl).1 1 (by decide),
   (claim_C8 0 2 [5, 6] rfl).2.1 0 1 (by decide) (by decide),
   (claim_C8 0 2 [5, 6] rfl).2.2.2 (by decide)⟩

/-- C2 fails on the code: with the last historical date a Thursday and a
three-day horizon, the second and third forecast dates are both the
following Monday (`last+2 → Saturday → Monday`, `last+3 → Sunday →
Monday`), so the dates are *not* strictly increasing (length and
weekday-avoidance do hold at this input). -/
theorem claim_C2_counterexample :
    (forecastEntries 3 [10, 11, 12] 3).length = 3 ∧
    (∀ e ∈ forecastEntries 3 [10, 11, 12] 3, e.1 % 7 < 5) ∧
    ¬ List.Chain' (fun a b : Nat × ℚ × ℚ => a.1 < b.1)
        (forecastEntries 3 [10, 11, 12] 3) := by
  refine ⟨by rfl, by decide, ?_⟩
  intro hch
  have := List.chain'_iff_get.mp hch 1 (by decide)
  revert this
  decide

/-- C2 amended: the Forecast Horizon has exactly `days_ahead` entries and
its dates never fall on a Saturday or Sunday, but they are only
*non-decreasing* (consecutive entries may repeat a date around weekends),
not strictly increasing. -/
theorem claim_C2_amended (lastDate daysAhead : Nat) (preds : List ℚ)
    (h : preds.length = daysAhead) :
    (forecastEntries lastDate preds daysAhead).length = daysAhead ∧
    (∀ e ∈ forecastEntries lastDate preds daysAhead, e.1 % 7 < 5) ∧
    List.Chain' (fun a b : Nat × ℚ × ℚ => a.1 ≤ b.1)
      (forecastEntries lastDate preds daysAhead) := by
  rw [forecastEntries_eq lastDate daysAhead preds h]
  refine ⟨by simp, ?_, ?_⟩
  · intro e he
    rcases List.mem_map.mp he with ⟨i, _, rfl⟩
    exact skipWeekend_weekday _
  · rw [List.chain'_iff_get]
    intro i hi
    simp only [List.getElem_map, List.getElem_range, List.get_eq_getElem]
    exact skipWeekend_mono (by omega)

/-- Witness for the amended C2 at the counterexample's input. -/
theorem claim_C2_amended_witness :
    (forecastEntries 3 [10, 11, 12] 3).length = 3 ∧
    List.Chain' (fun a b : Nat × ℚ × ℚ => a.1 ≤ b.1)
      (forecastEntries 3 [10, 11, 12] 3) :=
  ⟨(claim_C2_amended 3 3 [10, 11, 12] rfl).1,
   (claim_C2_amended 3 3 [10, 11, 12] rfl).2.2⟩

/-- C7: calling predict on an untrained sequence learner (either variant)
or on an untrained ensemble fails fast with the "must be trained" error —
predict takes no other path when `is_trained` is false — and every freshly
constructed instance starts untrained. -/
theorem claim_C7 :
    (∀ (m : LSTMModel) (close : List ℚ) (d : Nat), m.is_trained = false →
      m.predict close d =
        .error "Model must be trained before making predictions") ∧
    (∀ (m : AttentionModel) (close : List ℚ) (d : Nat), m.is_trained = false →
      m.predict close d =
        .error "Model must be trained before making predictions") ∧
    (∀ (m : EnsembleModel) (df : OHLCV) (d : Nat), m.is_trained = false →
      m.predict df d =
        .error "Model must be trained before making predictions") ∧
    (∀ L f, (LSTMModel.init L f).is_trained = false) ∧
    (∀ L f e, (AttentionModel.init L f e).is_trained = false) ∧
    (∀ L f1 f2 f3 f4 f5 f6 f7 mf e sq,
      (EnsembleModel.init L f1 f2 f3 f4 f5 f6 f7 mf e sq).is_trained = false) := by
  refine ⟨?_, ?_, ?_, fun L f => rfl, fun L f e => rfl,
    fun L f1 f2 f3 f4 f5 f6 f7 mf e sq => rfl⟩
  · intro m close d h
    simp [LSTMModel.predict, h]
  · intro m close d h
    simp [AttentionModel.predict, h]
  · intro m df d h
    simp [EnsembleModel.predict, h]

/-- Witness for C7: the fresh demo instances all refuse to predict. -/
theorem claim_C7_witness :
    lstmDemo.predict demoClose 3 =
      .error "Model must be trained before making predictions" ∧
    attDemo.predict demoClose 3 =
      .error "Model must be trained before making predictions" ∧
    ensDemo.predict demoDf 3 =
      .error "Model must be trained before making predictions" :=
  ⟨claim_C7.1 lstmDemo demoClose 3 rfl,
   claim_C7.2.1 attDemo demoClose 3 rfl,
   claim_C7.2.2.1 ensDemo demoDf 3 rfl⟩

/-- C5 fails on the code: on sixteen strictly increasing closes the
14-period average loss at row 13 is zero while the average gain is
positive, so `rs = gain/loss` is `+inf` and `RSI = 100 - 100/(1 + inf)`
evaluates to the *defined* value 100 — it is not an undefined value fixed
up by the fill policy. -/
theorem claim_C5_counterexample :
    (lossCol rsiProbeDf).getD 13 PF.nan = PF.val 0 ∧
    (gainCol rsiProbeDf).getD 13 PF.nan = PF.val (13 / 14) ∧
    (rsiCol rsiProbeDf).getD 13 PF.nan = PF.val 100 :=
  ⟨by with_unfolding_all rfl, by with_unfolding_all rfl, by with_unfolding_all rfl⟩

theorem pw_getD (f : PF → PF → PF) (a b : List PF) (i : Nat) (h : i < a.length)
    (d : PF) : (pw f a b).getD i d = f (a.getD i PF.nan) (b.getD i PF.nan) := by
  unfold pw
  rw [getD_range_map _ _ _ h]

/-- C5 amended: the RSI row where the 14-period average loss is zero never
raises an exception, but it is produced as an undefined value *only when
the average gain is also zero* (and is then subject to the fill policy:
the published RSI column is the filled raw column); when the average gain
is positive the division yields `+inf` and the RSI row takes the defined
value 100 directly. -/
theorem claim_C5_amended (df : OHLCV) (sqrtFn : ℚ → ℚ) (i : Nat) (g : ℚ)
    (hloss : (lossCol df).getD i PF.nan = PF.val 0)
    (hgain : (gainCol df).getD i PF.nan = PF.val g) :
    (g = 0 → (rsiCol df).getD i PF.nan = PF.nan) ∧
    (0 < g → (rsiCol df).getD i PF.nan = PF.val 100) ∧
    (addTechnicalIndicators sqrtFn df).lookup "RSI" = some (fillCol (rsiCol df)) := by
  have hi : i < df.n := by
    by_contra hge
    rw [List.getD_eq_getElem?_getD, List.getElem?_eq_none (by simpa using hge)] at hloss
    exact absurd hloss (by simp)
  have hrs : (rsCol df).getD i PF.nan = (PF.val g).div (PF.val 0) := by
    unfold rsCol
    rw [pw_getD _ _ _ _ (by simpa using hi), hloss, hgain]
  have hrsi : (rsiCol df).getD i PF.nan =
      PF.sub (PF.val 100) ((PF.val 100).div ((PF.val 1).add ((rsCol df).getD i PF.nan))) := by
    unfold rsiCol
    rw [getD_map_lt _ _ _ (by simpa using hi) _ PF.nan]
  refine ⟨?_, ?_, ?_⟩
  · intro hg0
    subst hg0
    rw [hrsi, hrs]
    simp [PF.div, PF.add, PF.sub, PF.neg]
  · intro hgpos
    rw [hrsi, hrs]
    have h1 : (PF.val g).div (PF.val 0) = PF.inf := by
      simp [PF.div, hgpos, hgpos.ne']
    rw [h1]
    simp [PF.add, PF.div, PF.sub, PF.neg]
  · rfl

/-- Witness for the amended C5: on the strictly increasing probe series,
row 13 has zero average loss, positive average gain, and a defined RSI of
exactly 100. -/
theorem claim_C5_amended_witness :
    (rsiCol rsiProbeDf).getD 13 PF.nan = PF.val 100 :=
  (claim_C5_amended rsiProbeDf id 13 (13 / 14)
    (by with_unfolding_all rfl) (by with_unfolding_all rfl)).2.1 (by norm_num)

set_option maxRecDepth 400000 in
set_option maxHeartbeats 1000000 in
/-- C4 fails on the code: the constant-price series of length 51 is a
valid OHLCV input longer than 50, yet after the forward/backward fill its
`BB_position` column is still entirely NaN — every row of the column was
NaN (zero Bollinger width gives `0/0`), so the fill had nothing to carry.
(Row counts are preserved; it is the no-undefined-values part that fails.) -/
theorem claim_C4_counterexample :
    constDf.Wf ∧ 50 < constDf.n ∧
    (addTechnicalIndicators id constDf).lookup "BB_position" =
      some (List.replicate 51 PF.nan) ∧
    PF.nan ∈ List.replicate 51 PF.nan := by
  refine ⟨by decide, by decide, ?_, by decide⟩
  with_unfolding_all rfl

/-- C4 amended: for every valid OHLCV series (all five columns of equal
length, length > 50) the Indicator Engine preserves the row count of
every column, and after the forward/backward fill every column that has
at least one defined entry has no undefined entries at all.  (A column
that is undefined in *every* row — possible for degenerate inputs such as
a constant price series, where the guarded Bollinger division is 0/0 in
each full window — stays undefined: the fill has no value to carry.) -/
theorem claim_C4_amended (sqrtFn : ℚ → ℚ) (df : OHLCV) (hwf : df.Wf)
    (_hn : 50 < df.n) :
    (∀ c ∈ addTechnicalIndicators sqrtFn df, c.2.length = df.n) ∧
    (∀ c ∈ addTechnicalIndicators sqrtFn df,
      (∃ x ∈ c.2, x.isNan = false) → ∀ x ∈ c.2, x.isNan = false) := by
  obtain ⟨ho, hh, hl, hv⟩ := hwf
  constructor
  · intro c hc
    rw [addTechnicalIndicators] at hc
    rcases List.mem_map.mp hc with ⟨c0, hc0, rfl⟩
    simp only [fillCol_length]
    simp only [rawIndicatorFrame, List.mem_cons, List.not_mem_nil, or_false] at hc0
    rcases hc0 with rfl|rfl|rfl|rfl|rfl|rfl|rfl|rfl|rfl|rfl|rfl|rfl|rfl|rfl|rfl|
      rfl|rfl|rfl|rfl|rfl|rfl|rfl|rfl|rfl|rfl|rfl|rfl|rfl|rfl|rfl|rfl|rfl|rfl|
      rfl|rfl|rfl <;>
      simp [qcol, ho, hh, hl, hv, OHLCV.n]
  · intro c hc hex
    rw [addTechnicalIndicators] at hc
    rcases List.mem_map.mp hc with ⟨c0, hc0, rfl⟩
    exact fillCol_dichotomy c0.2 hex

/-- Witness for the amended C4 at the 51-row constant frame: its filled
`Open` column keeps the row count. -/
theorem claim_C4_amended_witness :
    (fillCol (qcol constDf.opn)).length = constDf.n :=
  (claim_C4_amended id constDf (by decide) (by decide)).1
    ("Open", fillCol (qcol constDf.opn))
    (List.mem_map.mpr ⟨("Open", qcol constDf.opn), by simp [rawIndicatorFrame], rfl⟩)

/-- C10: for each model kind, `get_accuracy` returns 0 whenever the model
is untrained, and after a successful train call it returns exactly the
accuracy that training computed, which is `max(0, 100 - validation MAPE)`
(the MAPE taken between the inverse-scaled validation targets and the
fitted regressor's inverse-scaled validation predictions; for the
ensemble, between the validation targets and the meta-learner's
predictions on the stacked validation matrix). -/
theorem claim_C10 :
    (∀ m : LSTMModel, m.is_trained = false → m.get_accuracy = 0) ∧
    (∀ m : AttentionModel, m.is_trained = false → m.get_accuracy = 0) ∧
    (∀ m : EnsembleModel, m.is_trained = false → m.get_accuracy = 0) ∧
    (∀ (m : LSTMModel) (close : List ℚ) (vs : ℚ) (m2 : LSTMModel)
        (h : TrainingHistory), m.train close vs = .ok (m2, h) →
      m2.get_accuracy = h.accuracy ∧
      ∃ f, m2.net = some f ∧
        h.accuracy = max 0 (100 - mapeQ (lstmValActual m close vs)
          (lstmValPred m close vs f))) ∧
    (∀ (m : AttentionModel) (close : List ℚ) (vs : ℚ) (m2 : AttentionModel)
        (h : TrainingHistory), m.train close vs = .ok (m2, h) →
      m2.get_accuracy = h.accuracy ∧
      ∃ f, m2.net = some f ∧
        h.accuracy = max 0 (100 - mapeQ (attValActual m close vs)
          (attValPred m close vs f))) ∧
    (∀ (m : EnsembleModel) (data : OHLCV) (vs : ℚ) (m2 : EnsembleModel)
        (h : TrainingHistory), m.train data vs = .ok (m2, h) →
      m2.get_accuracy = h.accuracy ∧
      ∃ sv f, ensStackedVal m data vs = .ok sv ∧ m2.metaNet = some f ∧
        h.accuracy = max 0 (100 -
          mapeQ ((ensXy m data).2.drop (ensTrainSize m data vs)) (sv.map f))) := by
  refine ⟨?_, ?_, ?_, ?_, ?_, ?_⟩
  · intro m hm
    simp [LSTMModel.get_accuracy, hm]
  · intro m hm
    simp [AttentionModel.get_accuracy, hm]
  · intro m hm
    simp [EnsembleModel.get_accuracy, hm]
  · intro m close vs m2 h htrain
    unfold LSTMModel.train at htrain
    by_cases hemp : close.isEmpty
    · simp [hemp, throw, throwThe, MonadExceptOf.throw, Except.instMonad,
        Except.bind, Except.pure] at htrain
    · cases hfit : m.mlpFit ((lstmXy m close).1.take (lstmTs m close vs))
          ((lstmXy m close).2.take (lstmTs m close vs)) with
      | error e =>
        simp [hemp, hfit, Except.instMonad, Except.bind, Except.pure, pure] at htrain
      | ok f =>
        simp [hemp, hfit, Except.instMonad, Except.bind, Except.pure, pure] at htrain
        obtain ⟨hm2, hh⟩ := htrain
        subst hm2
        subst hh
        exact ⟨rfl, f, rfl, rfl⟩
  · intro m close vs m2 h htrain
    unfold AttentionModel.train at htrain
    by_cases hemp : close.isEmpty
    · simp [hemp, throw, throwThe, MonadExceptOf.throw, Except.instMonad,
        Except.bind, Except.pure] at htrain
    · cases hfit : m.gbFit ((attXy m close).1.take (attTs m close vs))
          ((attXy m close).2.take (attTs m close vs)) with
      | error e =>
        simp [hemp, hfit, Except.instMonad, Except.bind, Except.pure, pure] at htrain
      | ok f =>
        simp [hemp, hfit, Except.instMonad, Except.bind, Except.pure, pure] at htrain
        obtain ⟨hm2, hh⟩ := htrain
        subst hm2
        subst hh
        exact ⟨rfl, f, rfl, rfl⟩
  · intro m data vs m2 h htrain
    unfold EnsembleModel.train EnsembleModel.trainCore at htrain
    cases htab : ensTabResult m data vs with
    | error e =>
      simp [htab, Except.instMonad, Except.bind, Except.pure, pure] at htrain
    | ok tab =>
      cases hst : ensStackedTrain m data vs with
      | error e =>
        simp [htab, hst, Except.instMonad, Except.bind, Except.pure, pure] at htrain
      | ok st =>
        cases hsv : ensStackedVal m data vs with
        | error e =>
          simp [htab, hst, hsv, Except.instMonad, Except.bind, Except.pure,
            pure] at htrain
        | ok sv =>
          cases hmeta : m.metaFit st ((ensXy m data).2.take (ensTrainSize m data vs))
              sv ((ensXy m data).2.drop (ensTrainSize m data vs)) with
          | error e =>
            simp [htab, hst, hsv, hmeta, Except.instMonad, Except.bind,
              Except.pure, pure] at htrain
          | ok metaF =>
            simp [htab, hst, hsv, hmeta, Except.instMonad, Except.bind,
              Except.pure, pure] at htrain
            obtain ⟨hm2, hh⟩ := htrain
            subst hm2
            subst hh
            exact ⟨rfl, sv, metaF, rfl, rfl, rfl⟩

/-- Witness for C10: fresh demo models report accuracy 0; after concrete
successful trainings, `get_accuracy` equals the accuracy of the returned
TrainingHistory. -/
theorem claim_C10_witness :
    lstmDemo.get_accuracy = 0 ∧
    lstmDemoRes.1.get_accuracy = lstmDemoRes.2.accuracy ∧
    attDemoRes.1.get_accuracy = attDemoRes.2.accuracy ∧
    ensDemoRes.1.get_accuracy = ensDemoRes.2.accuracy :=
  ⟨claim_C10.1 lstmDemo rfl,
   (claim_C10.2.2.2.1 lstmDemo demoClose (1 / 5) lstmDemoRes.1 lstmDemoRes.2
     (by with_unfolding_all rfl)).1,
   (claim_C10.2.2.2.2.1 attDemo demoClose (1 / 5) attDemoRes.1 attDemoRes.2
     (by with_unfolding_all rfl)).1,
   (claim_C10.2.2.2.2.2 ensDemo demoDf (1 / 5) ensDemoRes.1 ensDemoRes.2
     (by with_unfolding_all rfl)).1⟩

/-! ## Ensemble-training lemmas -/

@[simp] theorem hstackRows_length (A B : List (List ℚ)) :
    (hstackRows A B).length = A.length := by simp [hstackRows]

@[simp] theorem columnStack_length (cols : List (List ℚ)) :
    (columnStack cols).length = (cols.headD []).length := by simp [columnStack]

theorem hstackRows_getD (A B : List (List ℚ)) (i : Nat) (h : i < A.length) :
    (hstackRows A B).getD i [] = A.getD i [] ++ B.getD i [] := by
  unfold hstackRows
  rw [getD_range_map _ _ _ h]

theorem columnStack_getD (cols : List (List ℚ)) (i : Nat)
    (h : i < (cols.headD []).length) :
    (columnStack cols).getD i [] = cols.map (fun c => c.getD i 0) := by
  unfold columnStack
  rw [getD_range_map _ _ _ h]

/-- What a successful run of the tabular fitting loop produces: one
prediction column per base model, each aligned with its partition. -/
theorem fitTabular_spec (tms : List TabModel) :
    ∀ (X : List (List ℚ)) (y : List ℚ) (Xv : List (List ℚ))
      (r : List TabModel × List (List ℚ) × List (List ℚ)),
      fitTabular tms X y Xv = .ok r →
      r.2.1.length = tms.length ∧ r.2.2.length = tms.length ∧
      (∀ c ∈ r.2.1, c.length = X.length) ∧ (∀ c ∈ r.2.2, c.length = Xv.length) := by
  induction tms with
  | nil =>
    intro X y Xv r h
    simp only [fitTabular] at h
    cases h
    simp
  | cons tm rest ih =>
    intro X y Xv r h
    unfold fitTabular at h
    cases hfit : tm.fit X y with
    | error e => simp [hfit, Except.instMonad, Except.bind] at h
    | ok f =>
      cases hrec : fitTabular rest X y Xv with
      | error e => simp [hfit, hrec, Except.instMonad, Except.bind] at h
      | ok r2 =>
        simp only [hfit, hrec, Except.instMonad, Except.bind, Except.pure,
          pure, bind] at h
        cases h
        obtain ⟨h1, h2, h3, h4⟩ := ih X y Xv r2 hrec
        refine ⟨by simp [h1], by simp [h2], ?_, ?_⟩
        · intro c hc
          rcases List.mem_cons.mp hc with rfl | hc'
          · simp
          · exact h3 c hc'
        · intro c hc
          rcases List.mem_cons.mp hc with rfl | hc'
          · simp
          · exact h4 c hc'

/-- C1 fails on the code: on a concrete successful ensemble training only
*six* prediction columns are stacked (five tabular learners plus the
single plain sequence learner) and the weighted sequence learner
(`attention_model`) is never trained — the trained ensemble still reports
it untrained. -/
theorem claim_C1_counterexample :
    (ensBasePredsTrain ensDemo demoDf (1 / 5)).map List.length = .ok 6 ∧
    (ensDemo.train demoDf (1 / 5)).map (fun r => r.1.attention_model.is_trained) =
      .ok false :=
  ⟨by with_unfolding_all rfl, by with_unfolding_all rfl⟩

/-- C1 amended: when the tabular loop succeeds, the stacked prediction
block has exactly `5 + 1 = 6` columns — the five tabular learners'
columns (each as long as the shared training partition) followed by the
plain sequence learner's (or its fallback) column; each stacked row is
those 6 predictions followed by the row's original feature columns; and
training never touches the weighted (attention) sequence learner, whose
state the trained ensemble carries over unchanged (reporting
`num_base_models = 6`). -/
theorem claim_C1_amended (m : EnsembleModel) (data : OHLCV) (vs : ℚ)
    (hbm : m.base_models.length = 5)
    (tab : List TabModel × List (List ℚ) × List (List ℚ))
    (htab : ensTabResult m data vs = .ok tab) :
    (∃ bp, ensBasePredsTrain m data vs = .ok bp ∧ bp.length = 6 ∧
      bp = tab.2.1 ++ [(ensLstmResult m data vs).2.1] ∧
      (∀ c ∈ tab.2.1, c.length =
        ((ensXy m data).1.take (ensTrainSize m data vs)).length)) ∧
    (∃ st, ensStackedTrain m data vs = .ok st ∧
      ∀ i, i < st.length →
        (st.getD i []).length = 6 +
          (((ensXy m data).1.take (ensTrainSize m data vs)).getD i []).length) ∧
    (∀ m2 h, m.train data vs = .ok (m2, h) →
      m2.attention_model = m.attention_model ∧ h.num_base_models = some 6) := by
  obtain ⟨hlen1, hlen2, hcols1, hcols2⟩ :=
    fitTabular_spec m.base_models _ _ _ tab htab
  have hbp : ensBasePredsTrain m data vs =
      .ok (tab.2.1 ++ [(ensLstmResult m data vs).2.1]) := by
    unfold ensBasePredsTrain
    rw [htab]
    rfl
  refine ⟨⟨tab.2.1 ++ [(ensLstmResult m data vs).2.1], hbp, ?_, rfl, hcols1⟩,
    ?_, ?_⟩
  · simp [hlen1, hbm]
  · refine ⟨hstackRows (columnStack (tab.2.1 ++ [(ensLstmResult m data vs).2.1]))
      ((ensXy m data).1.take (ensTrainSize m data vs)), ?_, ?_⟩
    · unfold ensStackedTrain
      rw [hbp]
      rfl
    · intro i hi
      simp only [hstackRows_length, columnStack_length] at hi
      rw [hstackRows_getD _ _ _ (by simpa using hi), columnStack_getD _ _ hi]
      simp only [List.length_append, List.length_map, hlen1, hbm,
        List.length_singleton]
  · intro m2 h htrain
    unfold EnsembleModel.train EnsembleModel.trainCore at htrain
    cases hst : ensStackedTrain m data vs with
    | error e =>
      simp [htab, hst, Except.instMonad, Except.bind, Except.pure, pure] at htrain
    | ok st =>
      cases hsv : ensStackedVal m data vs with
      | error e =>
        simp [htab, hst, hsv, Except.instMonad, Except.bind, Except.pure,
          pure] at htrain
      | ok sv =>
        cases hmeta : m.metaFit st ((ensXy m data).2.take (ensTrainSize m data vs))
            sv ((ensXy m data).2.drop (ensTrainSize m data vs)) with
        | error e =>
          simp [htab, hst, hsv, hmeta, Except.instMonad, Except.bind,
            Except.pure, pure] at htrain
        | ok metaF =>
          simp [htab, hst, hsv, hmeta, Except.instMonad, Except.bind,
            Except.pure, pure] at htrain
          obtain ⟨hm2, hh⟩ := htrain
          subst hm2
          subst hh
          exact ⟨rfl, by simp [hbm]⟩

/-- Witness for the amended C1 at the demo ensemble. -/
theorem claim_C1_amended_witness :
    ∃ bp, ensBasePredsTrain ensDemo demoDf (1 / 5) = .ok bp ∧ bp.length = 6 ∧
      bp = ensDemoTab.2.1 ++ [(ensLstmResult ensDemo demoDf (1 / 5)).2.1] ∧
      (∀ c ∈ ensDemoTab.2.1, c.length =
        ((ensXy ensDemo demoDf).1.take (ensTrainSize ensDemo demoDf (1 / 5))).length) :=
  (claim_C1_amended ensDemo demoDf (1 / 5) rfl ensDemoTab
    (by with_unfolding_all rfl)).1

/-- C3 fails on the code: the tabular fitting loop has no exception
handler, so a single tabular base learner throwing during fit aborts the
whole ensemble training with the wrapped training error — no constant
fallback is substituted and no TrainingHistory is returned.  (Only the
sequence-learner block is protected.) -/
theorem claim_C3_counterexample :
    ensTabFailDemo.train demoDf (1 / 5) =
      .error "Error training ensemble model: boom" := by
  with_unfolding_all rfl

/-- C3 amended: ensemble training tolerates a failure of the *sequence
learner* only — when the tabular loop and the meta-fit succeed, training
returns a TrainingHistory with accuracy ≥ 0 regardless of whether the
LSTM path threw, and when the LSTM's own training throws, its two
prediction columns are replaced by the partition-mean constants; an
exception from a tabular learner, by contrast, propagates (see the
counterexample). -/
theorem claim_C3_amended (m : EnsembleModel) (data : OHLCV) (vs : ℚ)
    (tab : List TabModel × List (List ℚ) × List (List ℚ))
    (st sv : List (List ℚ)) (f : List ℚ → ℚ)
    (htab : ensTabResult m data vs = .ok tab)
    (hst : ensStackedTrain m data vs = .ok st)
    (hsv : ensStackedVal m data vs = .ok sv)
    (hmeta : m.metaFit st ((ensXy m data).2.take (ensTrainSize m data vs)) sv
      ((ensXy m data).2.drop (ensTrainSize m data vs)) = .ok f) :
    (∃ m2 h, m.train data vs = .ok (m2, h) ∧ 0 ≤ h.accuracy) ∧
    (∀ e, m.lstm_model.train
        (data.close.take (ensTrainSize m data vs + m.sequence_length)) (1 / 5) =
          .error e →
      (ensLstmResult m data vs).2.1 =
        List.replicate ((ensXy m data).2.take (ensTrainSize m data vs)).length
          (meanQ ((ensXy m data).2.take (ensTrainSize m data vs))) ∧
      (ensLstmResult m data vs).2.2 =
        List.replicate ((ensXy m data).2.drop (ensTrainSize m data vs)).length
          (meanQ ((ensXy m data).2.drop (ensTrainSize m data vs)))) := by
  constructor
  · have hrun : ∃ m2 h, m.train data vs = .ok (m2, h) ∧
        h.accuracy = max 0 (100 - mapeQ
          ((ensXy m data).2.drop (ensTrainSize m data vs)) (sv.map f)) := by
      unfold EnsembleModel.train EnsembleModel.trainCore
      rw [htab, hst, hsv]
      simp only [Except.instMonad, Except.bind, Except.pure, pure, bind]
      rw [hmeta]
      exact ⟨_, _, rfl, rfl⟩
    rcases hrun with ⟨m2, h, htr, hacc⟩
    exact ⟨m2, h, htr, hacc ▸ le_max_left _ _⟩
  · intro e he
    unfold ensLstmResult ensLstmBlock
    simp only []
    rw [he]
    exact ⟨rfl, rfl⟩

/-- Witness for the amended C3: the demo ensemble whose sequence learner
throws still trains successfully with nonnegative accuracy, and its
sequence-learner prediction columns are the partition-mean constants. -/
theorem claim_C3_amended_witness :
    (∃ m2 h, ensLstmFailDemo.train demoDf (1 / 5) = .ok (m2, h) ∧
      0 ≤ h.accuracy) ∧
    (ensLstmResult ensLstmFailDemo demoDf (1 / 5)).2.1 =
      List.replicate
        ((ensXy ensLstmFailDemo demoDf).2.take
          (ensTrainSize ensLstmFailDemo demoDf (1 / 5))).length
        (meanQ ((ensXy ensLstmFailDemo demoDf).2.take
          (ensTrainSize ensLstmFailDemo demoDf (1 / 5)))) :=
  ⟨(claim_C3_amended ensLstmFailDemo demoDf (1 / 5) ensLstmFailTab
      ensLstmFailStT ensLstmFailStV (fun _ => 3) (by with_unfolding_all rfl)
      (by with_unfolding_all rfl) (by with_unfolding_all rfl)
      (by with_unfolding_all rfl)).1,
   ((claim_C3_amended ensLstmFailDemo demoDf (1 / 5) ensLstmFailTab
      ensLstmFailStT ensLstmFailStV (fun _ => 3) (by with_unfolding_all rfl)
      (by with_unfolding_all rfl) (by with_unfolding_all rfl)
      (by with_unfolding_all rfl)).2 "Error training model: boom"
      (by with_unfolding_all rfl)).1⟩
